import Mathlib

/-!
Verification of the LivePipe intent pipeline (TypeScript sources under src/src/lib).

JavaScript strings are modelled as lists of characters (`Str`); JS numbers that
the code keeps exact (integers, similarity ratios, thresholds) are modelled as
`ℚ`/`ℤ`/`ℕ`; a JS division that can produce NaN/Infinity is modelled with
`Option ℚ` (`none` = not-a-finite-number).  ISO-8601 timestamps are modelled as
integer epoch milliseconds: for equal-format ISO strings, lexicographic string
order coincides with chronological order, so the string comparisons of the
source are modelled as integer comparisons.
-/

namespace LivePipe

/-- JS strings as lists of characters. -/
abbrev Str := List Char

/-- JS regex `\s` whitespace class, restricted to the common whitespace code
points (space, tab, line feed, vertical tab, form feed, carriage return,
no-break space); the exotic unicode space code points are omitted. -/
def isWs (c : Char) : Bool :=
  c == ' ' || c == '\t' || c == '\n' || c == '\x0b' || c == '\x0c' || c == '\r' || c == ' '

/-- JS `String.prototype.trim`: strip leading and trailing whitespace. -/
def jsTrim (s : Str) : Str :=
  ((s.dropWhile isWs).reverse.dropWhile isWs).reverse

/-- JS `replace(/\s+/g, " ")`: collapse every maximal whitespace run into a
single space. -/
def squeezeWs : Str → Str
  | [] => []
  | [c] => [if isWs c then ' ' else c]
  | c :: d :: rest =>
    if isWs c && isWs d then squeezeWs (d :: rest)
    else (if isWs c then ' ' else c) :: squeezeWs (d :: rest)

/-- JS `toLowerCase`, modelled per character. -/
def jsToLower (s : Str) : Str := s.map Char.toLower

/-- The normalization applied inside `similarity` (deduplication.ts:78-79):
`x.toLowerCase().replace(/\s+/g, " ").trim()`. -/
def simNormalize (s : Str) : Str := jsTrim (squeezeWs (jsToLower s))

/-- JS division where the result may be NaN or ±Infinity: `none` models a
non-finite result (denominator zero), `some` a finite rational. -/
def jsDiv (n d : ℚ) : Option ℚ := if d = 0 then none else some (n / d)

/-- Character bigrams of a string as a finite set, mirroring the
`Set<string>` of two-character slices built in deduplication.ts:83-86. -/
def bigrams (s : Str) : Finset (Char × Char) := (s.zip s.tail).toFinset

/-- deduplication.ts:70-94 `similarity`: character-bigram Dice coefficient with
a length-ratio fast reject and an exact-match (after normalization)
short-circuit.  The final division is `none` (NaN) when both bigram sets are
empty. -/
def similarity (a b : Str) : Option ℚ :=
  let la := a.length
  let lb := b.length
  if la = 0 ∧ lb = 0 then some 1
  else if la = 0 ∨ lb = 0 then some 0
  else if ((((la : ℤ) - (lb : ℤ)).natAbs : ℚ) / ((max la lb : ℕ) : ℚ)) > 1 / 2 then some 0
  else
    let na := simNormalize a
    let nb := simNormalize b
    if na = nb then some 1
    else
      let bigramsA := bigrams na
      let bigramsB := bigrams nb
      let inter := (bigramsA ∩ bigramsB).card
      jsDiv (2 * inter) (bigramsA.card + bigramsB.card)

/-! ### Intent data model (schemas.ts) -/

/-- schemas.ts `intentSchema` / `IntentResult`. -/
structure IntentResult where
  actionable : Bool
  noteworthy : Bool
  content : Str
  due_time : Option Str
  urgent : Bool
deriving DecidableEq, Repr

/-! ### JSON values -/

/-- A parsed JSON value (result of JS `JSON.parse`). -/
inductive Json where
  | null : Json
  | bool : Bool → Json
  | num : ℚ → Json
  | str : Str → Json
  | arr : List Json → Json
  | obj : List (Str × Json) → Json

/-- JS property lookup `o[k]` on a parsed JSON object (`none` = undefined). -/
def jGet (kvs : List (Str × Json)) (k : Str) : Option Json :=
  match kvs with
  | [] => none
  | (k', v) :: rest => if k' = k then some v else jGet rest k

/-! ### Review gate (review.ts) -/

/-- review.ts:97-172 `reviewIntent`.  The two `provider.chat` calls and the
`extractReviewJson` text extraction are the model boundary: `result1` and
`result2` are the extracted JSON objects of stages 1 and 2 (`none` when no
object could be extracted), so quantifying over them covers every possible
model response.  A thrown provider error aborts the function without
returning an intent, so the thrown paths are outside this pure model. -/
def reviewIntent (intent : IntentResult)
    (result1 result2 : Option (List (Str × Json))) : IntentResult :=
  match result1.map (fun kvs => jGet kvs ("approved".toList)) with
  | some (some (Json.bool false)) => { intent with actionable := false }
  | _ =>
    match result2.map (fun kvs => jGet kvs ("approved".toList)) with
    | some (some (Json.bool false)) => { intent with actionable := false }
    | _ =>
      match result2.bind (fun kvs => jGet kvs ("refined_content".toList)) with
      | some (Json.str s) =>
        if s ≠ [] then
          let refined := s.take 200
          if refined ≠ intent.content then { intent with content := refined }
          else intent
        else intent
      | _ => intent

/-! ### Intent classifier guard rules (review.ts:259-355, the intent-detector
    part of the file) -/

/-- The regex pattern tests used by `normalizeIntentResult`
(NO_ACTION_PATTERNS, NOISE_PATTERNS, TASK_SIGNAL_PATTERNS,
NOTEWORTHY_SIGNAL_PATTERNS, URGENT_PATTERNS and the two regexes of
`hasStandaloneCancellation`), abstracted as predicates on the content string.
Theorems quantified over this structure hold for every choice of pattern
lists, in particular for the concrete regex lists of the source. -/
structure IntentPatterns where
  noAction : Str → Bool
  noise : Str → Bool
  taskSignal : Str → Bool
  noteworthySignal : Str → Bool
  urgent : Str → Bool
  canceled : Str → Bool
  rescheduled : Str → Bool

/-- review.ts:313-317 `hasStandaloneCancellation`: a cancellation phrase with
no reschedule phrase. -/
def hasStandaloneCancellation (P : IntentPatterns) (text : Str) : Bool :=
  P.canceled text && !P.rescheduled text

/-- review.ts:319-355 `normalizeIntentResult`: the deterministic guard rules
applied over the model-extracted IntentResult. -/
def normalizeIntentResult (P : IntentPatterns) (result : IntentResult) : IntentResult :=
  let normalizedContent := jsTrim result.content
  if normalizedContent = [] then
    ⟨false, false, [], none, false⟩
  else
    let normalized0 : IntentResult := { result with content := normalizedContent }
    let hasTaskSignal := P.taskSignal normalizedContent
    if P.noise normalizedContent && !hasTaskSignal then
      ⟨false, false, normalizedContent, none, false⟩
    else
      let n1 :=
        if P.noAction normalizedContent || hasStandaloneCancellation P normalizedContent then
          { normalized0 with actionable := false }
        else normalized0
      let n2 :=
        if n1.noteworthy && !P.noteworthySignal normalizedContent then
          { n1 with noteworthy := false }
        else n1
      let n3 := if !n2.actionable then { n2 with due_time := none } else n2
      let n4 : IntentResult := { n3 with urgent := P.urgent normalizedContent }
      if !n4.actionable && !n4.noteworthy then { n4 with urgent := false } else n4

/-! ### Dedup store (deduplication.ts) -/

/-- deduplication.ts:27-30 `RawEntry`; the ISO `detected` timestamp is epoch
milliseconds (ISO string order = chronological order). -/
structure RawEntry where
  content : Str
  detected : ℤ
deriving DecidableEq, Repr

/-- deduplication.ts:32-36 `DedupRuntimeConfig`. -/
structure DedupRuntimeConfig where
  actionableThreshold : ℚ
  noteworthyThreshold : ℚ
  lookbackDays : ℤ
deriving DecidableEq, Repr

/-- The dedup track (`mode` parameter of `checkRawCache`). -/
inductive DedupMode
  | actionable
  | noteworthy
deriving DecidableEq, Repr

/-- pipeline-logger.ts `DedupResult`; optional fields are `none` when absent. -/
structure DedupResult where
  passed : Bool
  reason : Str
  similarity : Option ℚ := none
  cacheSize : Option ℕ := none
  threshold : Option ℚ := none
deriving DecidableEq, Repr

/-- One track's in-memory raw cache together with its backing append-only log
file, as a list of lines. -/
structure DedupState where
  cache : List RawEntry
  log : List Str
deriving DecidableEq, Repr

/-- JS comparison `x >= t` where `x` may be NaN (`none`): NaN compares false. -/
def jsGe (x : Option ℚ) (t : ℚ) : Bool :=
  match x with
  | none => false
  | some q => t ≤ q

/-- JS `toFixed(0)` on the nonnegative percentages logged by the dedup store:
round half away from zero (for nonnegative arguments, `round` below). -/
def toFixed0 (q : ℚ) : Str := (toString (round q)).toList

/-- deduplication.ts:115-117 `formatRawLine`. -/
def formatRawLine (entry : RawEntry) : Str :=
  entry.content ++ " | detected:".toList ++ (toString entry.detected).toList

/-- Threshold selection at deduplication.ts:166-168. -/
def trackThreshold (cfg : DedupRuntimeConfig) (mode : DedupMode) : ℚ :=
  match mode with
  | .actionable => cfg.actionableThreshold
  | .noteworthy => cfg.noteworthyThreshold

/-- The entry-scan loop of `checkRawCache` (deduplication.ts:179-196): the
similarity of the first entry inside the lookback window that reaches the
threshold, `none` if no entry matches. -/
def scanCache (threshold : ℚ) (cutoff : ℤ) (content : Str) :
    List RawEntry → Option ℚ
  | [] => none
  | entry :: rest =>
    if entry.detected < cutoff then scanCache threshold cutoff content rest
    else
      let sim := similarity content entry.content
      if jsGe sim threshold then sim
      else scanCache threshold cutoff content rest

/-- deduplication.ts:161-210 `checkRawCache`: check-and-insert against one
track's raw cache.  A passing check appends the entry to the in-memory cache
and appends its formatted line to the backing log file in the same call. -/
def checkRawCache (cfg : DedupRuntimeConfig) (now : ℤ) (content : Str)
    (mode : DedupMode) (st : DedupState) : DedupResult × DedupState :=
  let threshold := trackThreshold cfg mode
  let cutoff := now - cfg.lookbackDays * (24 * 60 * 60 * 1000)
  match scanCache threshold cutoff content st.cache with
  | some sim =>
    ({ passed := false,
       reason := toFixed0 (sim * 100) ++ "% match".toList,
       similarity := some sim,
       cacheSize := some st.cache.length,
       threshold := some threshold }, st)
  | none =>
    let entry : RawEntry := { content := content, detected := now }
    let cache := st.cache ++ [entry]
    ({ passed := true,
       reason := "new content".toList,
       cacheSize := some cache.length,
       threshold := some threshold },
     { cache := cache, log := st.log ++ [formatRawLine entry] })

/-! ### Change detector (pipeline.ts:405-447) -/

/-- JS `split(/\n/)`. -/
def splitLines : Str → List Str
  | [] => [[]]
  | c :: rest =>
    let r := splitLines rest
    if c = '\n' then [] :: r
    else
      match r with
      | [] => [[c]]
      | h :: t => (c :: h) :: t

/-- The set of trimmed non-empty lines built on each side of `changeRatio`
(pipeline.ts:412-413). -/
def lineSet (s : Str) : Finset Str :=
  (((splitLines s).map jsTrim).filter (fun l => !l.isEmpty)).toFinset

/-- pipeline.ts:409-420 `changeRatio`: 1 minus the overlap of the two sets of
trimmed non-empty lines. -/
def changeRatio (a b : Str) : ℚ :=
  if a = b then 0
  else if a = [] ∨ b = [] then 1
  else
    let linesA := lineSet a
    let linesB := lineSet b
    let same := (linesA.filter (fun l => l ∈ linesB)).card
    let total := max (max linesA.card linesB.card) 1
    1 - (same : ℚ) / (total : ℚ)

/-- pipeline.ts:422 `MIN_CHANGE_RATIO`. -/
def MIN_CHANGE_RATIO : ℚ := 15 / 100

/-- pipeline.ts:424-428 `ChangeDecision.reason`. -/
inductive ChangeReason
  | empty
  | same
  | belowThreshold
  | changed
deriving DecidableEq, Repr

/-- pipeline.ts:424-428 `ChangeDecision`. -/
structure ChangeDecision where
  changedText : Option Str
  ratio : ℚ
  reason : ChangeReason
deriving DecidableEq, Repr

/-- pipeline.ts:430-447 `detectChange`; the module-global `lastText` baseline
is passed in and the updated baseline is returned alongside the decision. -/
def detectChange (lastText newText : Str) : ChangeDecision × Str :=
  let trimmed := jsTrim newText
  if trimmed = [] then
    ({ changedText := none, ratio := 0, reason := .empty }, lastText)
  else if trimmed = lastText then
    ({ changedText := none, ratio := 0, reason := .same }, lastText)
  else
    let ratio := changeRatio lastText trimmed
    if ratio < MIN_CHANGE_RATIO then
      ({ changedText := none, ratio := ratio, reason := .belowThreshold }, trimmed)
    else
      ({ changedText := some trimmed, ratio := ratio, reason := .changed }, trimmed)

/-! ### Task recording (deduplication.ts:18-24, 302-308, 381-421) -/

/-- deduplication.ts:18-24 `TaskEntry`; `detected` as epoch milliseconds. -/
structure TaskEntry where
  content : Str
  urgent : Bool
  dueTime : Option Str
  detected : ℤ
  completed : Bool
deriving DecidableEq, Repr

/-- deduplication.ts:302-308 `formatTaskLine`: the `due:` segment is emitted
only for a truthy (non-null, non-empty) `dueTime`. -/
def formatTaskLine (entry : TaskEntry) : Str :=
  let check : Str := if entry.completed then "x".toList else " ".toList
  let line := "- [".toList ++ check ++ "] ".toList ++ entry.content ++
    " | urgent:".toList ++ (toString entry.urgent).toList
  let line :=
    match entry.dueTime with
    | some d => if d ≠ [] then line ++ " | due:".toList ++ d else line
    | none => line
  line ++ " | detected:".toList ++ (toString entry.detected).toList

/-- deduplication.ts:381-421 `recordAndNotify`, up to the persistence of the
TaskEntry.  `parseDate` is the JS `new Date(...)` parser boundary (`none` =
Invalid Date, i.e. NaN time value), `now` the recording time; the
module-global task cache is threaded explicitly.  The trailing
fire-and-forget Apple-Reminders sync does not affect the persisted entry and
is outside this model.  Returns the appended entry (`none` when the intent is
not actionable) and the new cache. -/
def recordAndNotify (parseDate : Str → Option ℤ) (now : ℤ)
    (result : IntentResult) (taskCache : List TaskEntry) :
    Option TaskEntry × List TaskEntry :=
  if !result.actionable then (none, taskCache)
  else
    let dueTime :=
      match result.due_time with
      | some s =>
        if s ≠ [] then
          match parseDate s with
          | some t => if t < now then none else some s
          | none => some s
        else some s
      | none => none
    let entry : TaskEntry :=
      { content := result.content, urgent := result.urgent, dueTime := dueTime,
        detected := now, completed := false }
    (some entry, taskCache ++ [entry])

/-! ### Config store data model (pipe-config.ts:7-138) -/

/-- pipe-config.ts:7 `CaptureMode`. -/
inductive CaptureMode
  | always
  | hotkey
  | both
deriving DecidableEq, Repr

/-- pipe-config.ts:8 `WebhookProvider`. -/
inductive WebhookProvider
  | generic
  | feishu
  | telegram
deriving DecidableEq, Repr

/-- pipe-config.ts:10-14 `FilterConfig`. -/
structure FilterConfig where
  allowedApps : List Str
  blockedWindows : List Str
  minTextLength : ℤ
deriving DecidableEq, Repr

/-- pipe-config.ts:16-19 `CaptureConfig`. -/
structure CaptureConfig where
  mode : CaptureMode
  hotkeyHoldMs : ℤ
deriving DecidableEq, Repr

/-- pipe-config.ts:21-27 `ReviewConfig`. -/
structure ReviewConfig where
  enabled : Bool
  provider : Str
  model : Str
  apiKey : Str
  failOpen : Bool
deriving DecidableEq, Repr

/-- pipe-config.ts:29-35 `WebhookConfig`; the optional fields are `none` when
absent (undefined). -/
structure WebhookConfig where
  url : Str
  enabled : Bool
  provider : WebhookProvider
  headers : Option (List (Str × Str))
  chatId : Option Str
deriving DecidableEq, Repr

/-- pipe-config.ts:37-40 `NotificationConfig`. -/
structure NotificationConfig where
  desktop : Bool
  webhooks : List WebhookConfig
deriving DecidableEq, Repr

/-- pipe-config.ts:42-45 `RemindersConfig`. -/
structure RemindersConfig where
  enabled : Bool
  list : Str
deriving DecidableEq, Repr

/-- pipe-config.ts:47-50 `NotesConfig`. -/
structure NotesConfig where
  enabled : Bool
  folder : Str
deriving DecidableEq, Repr

/-- pipe-config.ts:52-56 `DedupConfig`. -/
structure DedupConfig where
  actionableThreshold : ℚ
  noteworthyThreshold : ℚ
  lookbackDays : ℤ
deriving DecidableEq, Repr

/-- pipe-config.ts:58-67 `PipeConfig`. -/
structure PipeConfig where
  filter : FilterConfig
  capture : CaptureConfig
  review : ReviewConfig
  outputLanguage : Str
  notification : NotificationConfig
  reminders : RemindersConfig
  notes : NotesConfig
  dedup : DedupConfig
deriving DecidableEq, Repr

/-- pipe-config.ts:98-102. -/
def DEFAULT_FILTER_CONFIG : FilterConfig :=
  { allowedApps := [],
    blockedWindows := ["livepipe".toList, "opencode".toList, "screenpipe".toList],
    minTextLength := 20 }

/-- pipe-config.ts:104-107. -/
def DEFAULT_CAPTURE_CONFIG : CaptureConfig := { mode := .always, hotkeyHoldMs := 500 }

/-- pipe-config.ts:109-115. -/
def DEFAULT_REVIEW_CONFIG : ReviewConfig :=
  { enabled := false, provider := [], model := [], apiKey := [], failOpen := true }

/-- pipe-config.ts:117-120. -/
def DEFAULT_NOTIFICATION_CONFIG : NotificationConfig := { desktop := true, webhooks := [] }

/-- pipe-config.ts:122-125. -/
def DEFAULT_REMINDERS_CONFIG : RemindersConfig := { enabled := false, list := "LivePipe".toList }

/-- pipe-config.ts:127-130. -/
def DEFAULT_NOTES_CONFIG : NotesConfig := { enabled := false, folder := "LivePipe".toList }

/-- pipe-config.ts:132-136. -/
def DEFAULT_DEDUP_CONFIG : DedupConfig :=
  { actionableThreshold := 3 / 5, noteworthyThreshold := 4 / 5, lookbackDays := 7 }

/-- pipe-config.ts:138. -/
def DEFAULT_OUTPUT_LANGUAGE : Str := "zh-CN".toList

/-- The fully-defaulted PipeConfig (every documented default applied). -/
def defaultPipeConfig : PipeConfig :=
  { filter := DEFAULT_FILTER_CONFIG,
    capture := DEFAULT_CAPTURE_CONFIG,
    review := DEFAULT_REVIEW_CONFIG,
    outputLanguage := DEFAULT_OUTPUT_LANGUAGE,
    notification := DEFAULT_NOTIFICATION_CONFIG,
    reminders := DEFAULT_REMINDERS_CONFIG,
    notes := DEFAULT_NOTES_CONFIG,
    dedup := DEFAULT_DEDUP_CONFIG }

/-! ### Zod schema semantics (pipe-config.ts:140-257)

`ZResult` models `safeParse`: `ok` with the validated (and defaulted,
trimmed) value, or `error` with the list of formatted field issues exactly as
`formatZodIssues` would render them (issue texts for zod's built-in type
errors are abbreviated; the custom messages of the schema are reproduced, and
element indices inside array paths are elided). -/

abbrev ZResult (α : Type) := Except (List Str) α

/-- Combination of two field results: zod accumulates the issues of all
failing fields instead of stopping at the first. -/
def zPair {α β : Type} : ZResult α → ZResult β → ZResult (α × β)
  | .ok a, .ok b => .ok (a, b)
  | .error e, .ok _ => .error e
  | .ok _, .error e => .error e
  | .error e1, .error e2 => .error (e1 ++ e2)

/-- `z.boolean()` at `path`. -/
def zBool (path : Str) : Json → ZResult Bool
  | .bool b => .ok b
  | _ => .error [path ++ ": must be a boolean".toList]

/-- `z.string()` at `path`. -/
def zStr (path : Str) : Json → ZResult Str
  | .str s => .ok s
  | _ => .error [path ++ ": must be a string".toList]

/-- `z.number().int("must be an integer").min(1, "must be >= 1")`: both checks
run and both can report. -/
def zIntMin1 (path : Str) : Json → ZResult ℤ
  | .num q =>
    let e1 : List Str := if q.den = 1 then [] else [path ++ ": must be an integer".toList]
    let e2 : List Str := if (1 : ℚ) ≤ q then [] else [path ++ ": must be >= 1".toList]
    if e1 ++ e2 = [] then .ok q.num else .error (e1 ++ e2)
  | _ => .error [path ++ ": must be a number".toList]

/-- `z.number().min(0, "must be >= 0").max(1, "must be <= 1")`. -/
def zRat01 (path : Str) : Json → ZResult ℚ
  | .num q =>
    let e1 : List Str := if (0 : ℚ) ≤ q then [] else [path ++ ": must be >= 0".toList]
    let e2 : List Str := if q ≤ 1 then [] else [path ++ ": must be <= 1".toList]
    if e1 ++ e2 = [] then .ok q else .error (e1 ++ e2)
  | _ => .error [path ++ ": must be a number".toList]

/-- `z.string().trim()`. -/
def zStrTrim (path : Str) (j : Json) : ZResult Str :=
  (zStr path j).map jsTrim

/-- `z.string().trim().min(1, "must be a non-empty string")`. -/
def zStrTrimMin1 (path : Str) (j : Json) : ZResult Str :=
  match zStr path j with
  | .ok s =>
    let t := jsTrim s
    if t = [] then .error [path ++ ": must be a non-empty string".toList] else .ok t
  | .error e => .error e

/-- `z.enum(["always", "hotkey", "both"])`. -/
def zCaptureMode (path : Str) : Json → ZResult CaptureMode
  | .str s =>
    if s = "always".toList then .ok .always
    else if s = "hotkey".toList then .ok .hotkey
    else if s = "both".toList then .ok .both
    else .error [path ++ ": must be one of always, hotkey, both".toList]
  | _ => .error [path ++ ": must be a string".toList]

/-- `z.enum(["generic", "feishu", "telegram"])`. -/
def zWebhookProvider (path : Str) : Json → ZResult WebhookProvider
  | .str s =>
    if s = "generic".toList then .ok .generic
    else if s = "feishu".toList then .ok .feishu
    else if s = "telegram".toList then .ok .telegram
    else .error [path ++ ": must be one of generic, feishu, telegram".toList]
  | _ => .error [path ++ ": must be a string".toList]

/-- Elements of a `z.array(...)`, accumulating issues. -/
def zArrOf {α : Type} (f : Json → ZResult α) : List Json → ZResult (List α)
  | [] => .ok []
  | j :: rest => (zPair (f j) (zArrOf f rest)).map (fun p => p.1 :: p.2)

/-- `z.array(inner)`. -/
def zArr {α : Type} (path : Str) (f : Json → ZResult α) : Json → ZResult (List α)
  | .arr items => zArrOf f items
  | _ => .error [path ++ ": must be an array".toList]

/-- Values of a `z.record(z.string())`. -/
def zStrPairs (path : Str) : List (Str × Json) → ZResult (List (Str × Str))
  | [] => .ok []
  | (k, v) :: rest => (zPair (zStr path v) (zStrPairs path rest)).map (fun p => (k, p.1) :: p.2)

/-- `z.record(z.string())`. -/
def zStrRecord (path : Str) : Json → ZResult (List (Str × Str))
  | .obj kvs => zStrPairs path kvs
  | _ => .error [path ++ ": must be an object".toList]

/-- `.default(d)`: a missing (undefined) field yields the default. Every
default used by the schema is a fixed point of its inner validator, so the
zod behavior of re-parsing the default is the identity here. -/
def zDefault {α : Type} (d : α) (f : Json → ZResult α) : Option Json → ZResult α
  | none => .ok d
  | some j => f j

/-- `.optional()`: a missing field stays missing. -/
def zOptional {α : Type} (f : Json → ZResult α) : Option Json → ZResult (Option α)
  | none => .ok none
  | some j => (f j).map some

/-- A field with neither default nor optional marker: missing is an error. -/
def zRequired {α : Type} (path : Str) (f : Json → ZResult α) : Option Json → ZResult α
  | none => .error [path ++ ": Required".toList]
  | some j => f j

/-! ### The pipe config schema (pipe-config.ts:140-257) -/

/-- `.superRefine(check)`: the refinement runs only when the inner schema
parsed, and its issues (if any) fail the parse. -/
def zRefine {α : Type} (issues : α → List Str) (r : ZResult α) : ZResult α :=
  match r with
  | .ok x => if issues x = [] then .ok x else .error (issues x)
  | .error e => .error e

/-- filter section (pipe-config.ts:160-170). -/
def parseFilterConfig : Option Json → ZResult FilterConfig
  | none => .ok DEFAULT_FILTER_CONFIG
  | some (.obj kvs) =>
    (zPair
      (zPair
        (zDefault DEFAULT_FILTER_CONFIG.allowedApps
          (zArr "filter.allowedApps".toList (zStr "filter.allowedApps".toList))
          (jGet kvs "allowedApps".toList))
        (zDefault DEFAULT_FILTER_CONFIG.blockedWindows
          (zArr "filter.blockedWindows".toList (zStr "filter.blockedWindows".toList))
          (jGet kvs "blockedWindows".toList)))
      (zDefault DEFAULT_FILTER_CONFIG.minTextLength
        (zIntMin1 "filter.minTextLength".toList)
        (jGet kvs "minTextLength".toList))).map
      (fun p => { allowedApps := p.1.1, blockedWindows := p.1.2, minTextLength := p.2 })
  | some _ => .error ["filter: must be an object".toList]

/-- capture section (pipe-config.ts:171-180). -/
def parseCaptureConfig : Option Json → ZResult CaptureConfig
  | none => .ok DEFAULT_CAPTURE_CONFIG
  | some (.obj kvs) =>
    (zPair
      (zDefault DEFAULT_CAPTURE_CONFIG.mode
        (zCaptureMode "capture.mode".toList) (jGet kvs "mode".toList))
      (zDefault DEFAULT_CAPTURE_CONFIG.hotkeyHoldMs
        (zIntMin1 "capture.hotkeyHoldMs".toList) (jGet kvs "hotkeyHoldMs".toList))).map
      (fun p => { mode := p.1, hotkeyHoldMs := p.2 })
  | some _ => .error ["capture: must be an object".toList]

/-- The `superRefine` of the review section (pipe-config.ts:189-212). -/
def reviewIssues (r : ReviewConfig) : List Str :=
  if !r.enabled then []
  else
    (if r.provider = [] then
      ["review.provider: is required when review.enabled is true".toList] else []) ++
    (if r.model = [] then
      ["review.model: is required when review.enabled is true".toList] else []) ++
    (if r.apiKey = [] then
      ["review.apiKey: is required when review.enabled is true".toList] else [])

/-- review section (pipe-config.ts:181-213); the refinement runs only when the
object itself parsed. -/
def parseReviewConfig : Option Json → ZResult ReviewConfig
  | none => .ok DEFAULT_REVIEW_CONFIG
  | some (.obj kvs) =>
    zRefine reviewIssues
      ((zPair
        (zPair
          (zPair
            (zDefault DEFAULT_REVIEW_CONFIG.enabled
              (zBool "review.enabled".toList) (jGet kvs "enabled".toList))
            (zDefault DEFAULT_REVIEW_CONFIG.provider
              (zStrTrim "review.provider".toList) (jGet kvs "provider".toList)))
          (zPair
            (zDefault DEFAULT_REVIEW_CONFIG.model
              (zStrTrim "review.model".toList) (jGet kvs "model".toList))
            (zDefault DEFAULT_REVIEW_CONFIG.apiKey
              (zStr "review.apiKey".toList) (jGet kvs "apiKey".toList))))
        (zDefault DEFAULT_REVIEW_CONFIG.failOpen
          (zBool "review.failOpen".toList) (jGet kvs "failOpen".toList))).map
        (fun p => ReviewConfig.mk p.1.1.1 p.1.1.2 p.1.2.1 p.1.2.2 p.2))
  | some _ => .error ["review: must be an object".toList]

/-- The `superRefine` of the webhook schema (pipe-config.ts:148-156): JS
`!value.chatId` is true for a missing or empty (falsy) chat id. -/
def webhookIssues (w : WebhookConfig) : List Str :=
  if w.provider = WebhookProvider.telegram ∧ (w.chatId = none ∨ w.chatId = some []) then
    ["notification.webhooks.chatId: is required when notification.webhooks.provider is \"telegram\"".toList]
  else []

/-- webhook element schema (pipe-config.ts:140-156). -/
def parseWebhookConfig (j : Json) : ZResult WebhookConfig :=
  match j with
  | .obj kvs =>
    zRefine webhookIssues
      ((zPair
        (zPair
          (zRequired "notification.webhooks.url".toList
            (zStrTrimMin1 "notification.webhooks.url".toList) (jGet kvs "url".toList))
          (zDefault true (zBool "notification.webhooks.enabled".toList)
            (jGet kvs "enabled".toList)))
        (zPair
          (zDefault WebhookProvider.generic
            (zWebhookProvider "notification.webhooks.provider".toList)
            (jGet kvs "provider".toList))
          (zPair
            (zOptional (zStrRecord "notification.webhooks.headers".toList)
              (jGet kvs "headers".toList))
            (zOptional (zStrTrim "notification.webhooks.chatId".toList)
              (jGet kvs "chatId".toList))))).map
        (fun p => WebhookConfig.mk p.1.1 p.1.2 p.2.1 p.2.2.1 p.2.2.2))
  | _ => .error ["notification.webhooks: must be an object".toList]

/-- notification section (pipe-config.ts:219-224). -/
def parseNotificationConfig : Option Json → ZResult NotificationConfig
  | none => .ok DEFAULT_NOTIFICATION_CONFIG
  | some (.obj kvs) =>
    (zPair
      (zDefault DEFAULT_NOTIFICATION_CONFIG.desktop
        (zBool "notification.desktop".toList) (jGet kvs "desktop".toList))
      (zDefault DEFAULT_NOTIFICATION_CONFIG.webhooks
        (zArr "notification.webhooks".toList parseWebhookConfig)
        (jGet kvs "webhooks".toList))).map
      (fun p => { desktop := p.1, webhooks := p.2 })
  | some _ => .error ["notification: must be an object".toList]

/-- reminders section (pipe-config.ts:225-230). -/
def parseRemindersConfig : Option Json → ZResult RemindersConfig
  | none => .ok DEFAULT_REMINDERS_CONFIG
  | some (.obj kvs) =>
    (zPair
      (zDefault DEFAULT_REMINDERS_CONFIG.enabled
        (zBool "reminders.enabled".toList) (jGet kvs "enabled".toList))
      (zDefault DEFAULT_REMINDERS_CONFIG.list
        (zStrTrimMin1 "reminders.list".toList) (jGet kvs "list".toList))).map
      (fun p => { enabled := p.1, list := p.2 })
  | some _ => .error ["reminders: must be an object".toList]

/-- notes section (pipe-config.ts:231-236). -/
def parseNotesConfig : Option Json → ZResult NotesConfig
  | none => .ok DEFAULT_NOTES_CONFIG
  | some (.obj kvs) =>
    (zPair
      (zDefault DEFAULT_NOTES_CONFIG.enabled
        (zBool "notes.enabled".toList) (jGet kvs "enabled".toList))
      (zDefault DEFAULT_NOTES_CONFIG.folder
        (zStrTrimMin1 "notes.folder".toList) (jGet kvs "folder".toList))).map
      (fun p => { enabled := p.1, folder := p.2 })
  | some _ => .error ["notes: must be an object".toList]

/-- dedup section (pipe-config.ts:237-255). -/
def parseDedupConfig : Option Json → ZResult DedupConfig
  | none => .ok DEFAULT_DEDUP_CONFIG
  | some (.obj kvs) =>
    (zPair
      (zPair
        (zDefault DEFAULT_DEDUP_CONFIG.actionableThreshold
          (zRat01 "dedup.actionableThreshold".toList) (jGet kvs "actionableThreshold".toList))
        (zDefault DEFAULT_DEDUP_CONFIG.noteworthyThreshold
          (zRat01 "dedup.noteworthyThreshold".toList) (jGet kvs "noteworthyThreshold".toList)))
      (zDefault DEFAULT_DEDUP_CONFIG.lookbackDays
        (zIntMin1 "dedup.lookbackDays".toList) (jGet kvs "lookbackDays".toList))).map
      (fun p => { actionableThreshold := p.1.1, noteworthyThreshold := p.1.2, lookbackDays := p.2 })
  | some _ => .error ["dedup: must be an object".toList]

/-- pipe-config.ts:158-257 `pipeConfigSchema.safeParse` composed after
`JSON.parse`, i.e. the body of `parsePipeConfigTextOrThrow`
(pipe-config.ts:306-321) over an already-parsed JSON value: `ok` is the
validated config, `error` the formatted issue list of the thrown
`PipeConfigValidationError`.  The root `.passthrough()` only retains unknown
root keys on the runtime object; the `PipeConfig` record (like the TS
`PipeConfig` type) does not contain them. -/
def parsePipeConfig : Json → ZResult PipeConfig
  | .obj kvs =>
    (zPair
      (zPair
        (zPair (parseFilterConfig (jGet kvs "filter".toList))
               (parseCaptureConfig (jGet kvs "capture".toList)))
        (zPair (parseReviewConfig (jGet kvs "review".toList))
               (zDefault DEFAULT_OUTPUT_LANGUAGE
                 (zStrTrimMin1 "outputLanguage".toList)
                 (jGet kvs "outputLanguage".toList))))
      (zPair
        (zPair (parseNotificationConfig (jGet kvs "notification".toList))
               (parseRemindersConfig (jGet kvs "reminders".toList)))
        (zPair (parseNotesConfig (jGet kvs "notes".toList))
               (parseDedupConfig (jGet kvs "dedup".toList))))).map
      (fun p => PipeConfig.mk p.1.1.1 p.1.1.2 p.1.2.1 p.1.2.2
                              p.2.1.1 p.2.1.2 p.2.2.1 p.2.2.2)
  | _ => .error ["(root): must be an object".toList]

/-! ### Serialization of a parsed PipeConfig -/

/-- Rendering of a capture mode back to its JSON string. -/
def captureModeStr : CaptureMode → Str
  | .always => "always".toList
  | .hotkey => "hotkey".toList
  | .both => "both".toList

/-- Rendering of a webhook provider back to its JSON string. -/
def webhookProviderStr : WebhookProvider → Str
  | .generic => "generic".toList
  | .feishu => "feishu".toList
  | .telegram => "telegram".toList

/-- `JSON.stringify` of a parsed webhook object: optional fields are omitted
when undefined; key order is the schema shape order. -/
def serializeWebhookConfig (w : WebhookConfig) : Json :=
  Json.obj
    ([("url".toList, Json.str w.url),
      ("enabled".toList, Json.bool w.enabled),
      ("provider".toList, Json.str (webhookProviderStr w.provider))] ++
     (match w.headers with
      | some hs => [("headers".toList, Json.obj (hs.map (fun p => (p.1, Json.str p.2))))]
      | none => []) ++
     (match w.chatId with
      | some c => [("chatId".toList, Json.str c)]
      | none => []))

/-- `JSON.stringify` of a parsed PipeConfig: the JSON value written back to
pipe.json for a validated config. -/
def serializePipeConfig (c : PipeConfig) : Json :=
  Json.obj
    [("filter".toList, Json.obj
       [("allowedApps".toList, Json.arr (c.filter.allowedApps.map Json.str)),
        ("blockedWindows".toList, Json.arr (c.filter.blockedWindows.map Json.str)),
        ("minTextLength".toList, Json.num c.filter.minTextLength)]),
     ("capture".toList, Json.obj
       [("mode".toList, Json.str (captureModeStr c.capture.mode)),
        ("hotkeyHoldMs".toList, Json.num c.capture.hotkeyHoldMs)]),
     ("review".toList, Json.obj
       [("enabled".toList, Json.bool c.review.enabled),
        ("provider".toList, Json.str c.review.provider),
        ("model".toList, Json.str c.review.model),
        ("apiKey".toList, Json.str c.review.apiKey),
        ("failOpen".toList, Json.bool c.review.failOpen)]),
     ("outputLanguage".toList, Json.str c.outputLanguage),
     ("notification".toList, Json.obj
       [("desktop".toList, Json.bool c.notification.desktop),
        ("webhooks".toList, Json.arr (c.notification.webhooks.map serializeWebhookConfig))]),
     ("reminders".toList, Json.obj
       [("enabled".toList, Json.bool c.reminders.enabled),
        ("list".toList, Json.str c.reminders.list)]),
     ("notes".toList, Json.obj
       [("enabled".toList, Json.bool c.notes.enabled),
        ("folder".toList, Json.str c.notes.folder)]),
     ("dedup".toList, Json.obj
       [("actionableThreshold".toList, Json.num c.dedup.actionableThreshold),
        ("noteworthyThreshold".toList, Json.num c.dedup.noteworthyThreshold),
        ("lookbackDays".toList, Json.num c.dedup.lookbackDays)])]

/-! ### Config change events and the watcher (pipe-config.ts:259-477) -/

/-- pipe-config.ts:76 `PipeConfigChangeType`. -/
inductive PipeConfigChangeType
  | hotReloaded
  | restartRequired
  | validationError
deriving DecidableEq, Repr

/-- pipe-config.ts:78-86 `PipeConfigChangeEvent`; the `at` timestamp (epoch
ms) is named `atMs` because `at` is reserved in Lean. -/
structure PipeConfigChangeEvent where
  type : PipeConfigChangeType
  atMs : ℤ
  message : Str
  changedFields : List Str
  hotReloaded : List Str
  restartRequired : List Str
  issues : Option (List Str) := none
deriving DecidableEq, Repr

/-- pipe-config.ts:259-278 `HOT_RELOAD_FIELDS`. -/
def HOT_RELOAD_FIELDS : List Str :=
  ["filter.allowedApps".toList, "filter.blockedWindows".toList, "filter.minTextLength".toList,
   "review.enabled".toList, "review.provider".toList, "review.model".toList,
   "review.apiKey".toList, "review.failOpen".toList, "outputLanguage".toList,
   "notification.desktop".toList, "notification.webhooks".toList,
   "reminders.enabled".toList, "reminders.list".toList,
   "notes.enabled".toList, "notes.folder".toList,
   "dedup.actionableThreshold".toList, "dedup.noteworthyThreshold".toList,
   "dedup.lookbackDays".toList]

/-- pipe-config.ts:280 `RESTART_REQUIRED_FIELDS`. -/
def RESTART_REQUIRED_FIELDS : List Str :=
  ["capture.mode".toList, "capture.hotkeyHoldMs".toList]

/-- pipe-config.ts:286-288 `formatPath`; path segments as strings. -/
structure ZodIssue where
  path : List Str
  message : Str

/-- pipe-config.ts:286-288 `formatPath`. -/
def formatPath (path : List Str) : Str :=
  if path.length > 0 then List.intercalate ".".toList path else "(root)".toList

/-- pipe-config.ts:290-292 `formatZodIssues`: formats every issue of the
error, not only the first. -/
def formatZodIssues (issues : List ZodIssue) : List Str :=
  issues.map (fun issue => formatPath issue.path ++ ": ".toList ++ issue.message)

/-- pipe-config.ts:353-367 `getChangedFields` over
`getComparableFields` (pipe-config.ts:328-351): string equality of the
canonical JSON of each tracked field, modelled as structural equality of the
field values; the emitted paths keep the fixed key order of
`getComparableFields`. -/
def getChangedFields (previous next : PipeConfig) : List Str :=
  (if previous.filter.allowedApps = next.filter.allowedApps then [] else ["filter.allowedApps".toList]) ++
  (if previous.filter.blockedWindows = next.filter.blockedWindows then [] else ["filter.blockedWindows".toList]) ++
  (if previous.filter.minTextLength = next.filter.minTextLength then [] else ["filter.minTextLength".toList]) ++
  (if previous.capture.mode = next.capture.mode then [] else ["capture.mode".toList]) ++
  (if previous.capture.hotkeyHoldMs = next.capture.hotkeyHoldMs then [] else ["capture.hotkeyHoldMs".toList]) ++
  (if previous.review.enabled = next.review.enabled then [] else ["review.enabled".toList]) ++
  (if previous.review.provider = next.review.provider then [] else ["review.provider".toList]) ++
  (if previous.review.model = next.review.model then [] else ["review.model".toList]) ++
  (if previous.review.apiKey = next.review.apiKey then [] else ["review.apiKey".toList]) ++
  (if previous.review.failOpen = next.review.failOpen then [] else ["review.failOpen".toList]) ++
  (if previous.outputLanguage = next.outputLanguage then [] else ["outputLanguage".toList]) ++
  (if previous.notification.desktop = next.notification.desktop then [] else ["notification.desktop".toList]) ++
  (if previous.notification.webhooks = next.notification.webhooks then [] else ["notification.webhooks".toList]) ++
  (if previous.reminders.enabled = next.reminders.enabled then [] else ["reminders.enabled".toList]) ++
  (if previous.reminders.list = next.reminders.list then [] else ["reminders.list".toList]) ++
  (if previous.notes.enabled = next.notes.enabled then [] else ["notes.enabled".toList]) ++
  (if previous.notes.folder = next.notes.folder then [] else ["notes.folder".toList]) ++
  (if previous.dedup.actionableThreshold = next.dedup.actionableThreshold then [] else ["dedup.actionableThreshold".toList]) ++
  (if previous.dedup.noteworthyThreshold = next.dedup.noteworthyThreshold then [] else ["dedup.noteworthyThreshold".toList]) ++
  (if previous.dedup.lookbackDays = next.dedup.lookbackDays then [] else ["dedup.lookbackDays".toList])

/-- pipe-config.ts:369-406 `buildChangeEvent`; `now` is the value of
`new Date()` when the event is built. -/
def buildChangeEvent (now : ℤ) (changedFields : List Str)
    (issues : Option (List Str)) : PipeConfigChangeEvent :=
  let hotReloaded := changedFields.filter (fun p => HOT_RELOAD_FIELDS.contains p)
  let restartRequired := changedFields.filter (fun p => RESTART_REQUIRED_FIELDS.contains p)
  if issues.getD [] ≠ [] then
    { type := .validationError,
      atMs := now,
      message := "配置校验失败: ".toList ++ (issues.getD []).headD [],
      changedFields := changedFields,
      hotReloaded := [],
      restartRequired := [],
      issues := issues }
  else
    let type : PipeConfigChangeType :=
      if restartRequired.length > 0 then .restartRequired else .hotReloaded
    let messageParts : List Str :=
      (if hotReloaded.length > 0 then
        ["已热加载: ".toList ++ List.intercalate ", ".toList hotReloaded] else []) ++
      (if restartRequired.length > 0 then
        ["需要重启: ".toList ++ List.intercalate ", ".toList restartRequired] else [])
    { type := type,
      atMs := now,
      message := List.intercalate " | ".toList messageParts,
      changedFields := changedFields,
      hotReloaded := hotReloaded,
      restartRequired := restartRequired }

/-- The module-global state read by `getPipeConfig` and mutated by the watcher
callback (pipe-config.ts:282-284). -/
structure WatcherState where
  currentConfig : Option PipeConfig
  lastConfigEvent : Option PipeConfigChangeEvent
deriving DecidableEq, Repr

/-- pipe-config.ts:414-419 `getPipeConfig` for a state whose config has been
loaded; the lazy first load performs file IO outside this model. -/
def getPipeConfig (st : WatcherState) : Option PipeConfig := st.currentConfig

/-- The body of the `watchFile` callback of `startPipeConfigWatcher`
(pipe-config.ts:441-476) once the mtime has advanced: `parsed` is the outcome
of `readAndParsePipeConfigOrThrow` (`error` carries the issue list of the
thrown `PipeConfigValidationError`; the second catch branch wraps any other
error as a single-issue list, so every failure reaches this model as an
`error`).  Returns the new module state and the event passed to `onEvent`
(`none` when no event is emitted). -/
def watcherStep (now : ℤ) (st : WatcherState) (parsed : ZResult PipeConfig) :
    WatcherState × Option PipeConfigChangeEvent :=
  match parsed with
  | .ok nextConfig =>
    match st.currentConfig with
    | none => ({ st with currentConfig := some nextConfig }, none)
    | some previousConfig =>
      let changedFields := getChangedFields previousConfig nextConfig
      if changedFields = [] then
        ({ st with currentConfig := some nextConfig }, none)
      else
        let ev := buildChangeEvent now changedFields none
        ({ currentConfig := some nextConfig, lastConfigEvent := some ev }, some ev)
  | .error issues =>
    let ev := buildChangeEvent now [] (some issues)
    ({ st with lastConfigEvent := some ev }, some ev)

/-! ### Invariants of a validated config -/

/-- The facts the webhook schema guarantees about a parsed webhook object:
trimmed non-empty url, trimmed chatId when present, and a truthy chatId for
the telegram provider (the `superRefine` of pipe-config.ts:148-156). -/
def ValidWebhook (w : WebhookConfig) : Prop :=
  jsTrim w.url = w.url ∧ w.url ≠ [] ∧
  (∀ c, w.chatId = some c → jsTrim c = c) ∧
  ¬ (w.provider = WebhookProvider.telegram ∧ (w.chatId = none ∨ w.chatId = some []))

/-- The facts `pipeConfigSchema` guarantees about every successfully parsed
PipeConfig (range checks, trimming fixed points, and the two refinements). -/
def ValidConfig (c : PipeConfig) : Prop :=
  1 ≤ c.filter.minTextLength ∧
  1 ≤ c.capture.hotkeyHoldMs ∧
  jsTrim c.review.provider = c.review.provider ∧
  jsTrim c.review.model = c.review.model ∧
  (c.review.enabled = true →
    c.review.provider ≠ [] ∧ c.review.model ≠ [] ∧ c.review.apiKey ≠ []) ∧
  jsTrim c.outputLanguage = c.outputLanguage ∧ c.outputLanguage ≠ [] ∧
  (∀ w ∈ c.notification.webhooks, ValidWebhook w) ∧
  jsTrim c.reminders.list = c.reminders.list ∧ c.reminders.list ≠ [] ∧
  jsTrim c.notes.folder = c.notes.folder ∧ c.notes.folder ≠ [] ∧
  0 ≤ c.dedup.actionableThreshold ∧ c.dedup.actionableThreshold ≤ 1 ∧
  0 ≤ c.dedup.noteworthyThreshold ∧ c.dedup.noteworthyThreshold ≤ 1 ∧
  1 ≤ c.dedup.lookbackDays

end LivePipe

namespace LivePipe

theorem similarity_self (s : Str) : similarity s s = some 1 := by
  rcases s with _ | ⟨c, t⟩
  · rfl
  · unfold similarity
    norm_num

/-- The length-ratio condition of the fast reject, reduced to an integer
inequality. -/
theorem ratio_gt_half (x m : ℕ) (hm : 0 < m) :
    ((x : ℚ) / ((m : ℕ) : ℚ) > 1 / 2) ↔ m < 2 * x := by
  rw [gt_iff_lt, lt_div_iff (by exact_mod_cast hm : (0 : ℚ) < (m : ℚ))]
  constructor
  · intro h
    have : (m : ℚ) < 2 * x := by linarith
    exact_mod_cast this
  · intro h
    have : (m : ℚ) < 2 * (x : ℚ) := by exact_mod_cast h
    linarith

/-- `changeRatio` is 0 whenever the two texts differ as strings but have the
same non-empty set of trimmed lines. -/
theorem changeRatio_eq_zero (a b : Str) (hne : a ≠ b) (ha : a ≠ []) (hb : b ≠ [])
    (hset : lineSet a = lineSet b) (hcard : lineSet a ≠ ∅) :
    changeRatio a b = 0 := by
  unfold changeRatio
  rw [if_neg hne, if_neg (by simp [ha, hb])]
  rw [← hset]
  dsimp only
  have hs : Finset.filter (fun l => l ∈ lineSet a) (lineSet a) = lineSet a :=
    Finset.filter_true_of_mem (fun x hx => hx)
  rw [hs]
  have hpos : 0 < (lineSet a).card :=
    Finset.card_pos.mpr (Finset.nonempty_iff_ne_empty.mpr hcard)
  rw [max_self, max_eq_left hpos]
  have hq : ((lineSet a).card : ℚ) ≠ 0 := by
    have := Nat.pos_iff_ne_zero.mp hpos
    exact_mod_cast this
  rw [div_self hq]
  norm_num


/-- The scan loop finds nothing when no in-window entry reaches the
threshold. -/
theorem scanCache_eq_none (threshold : ℚ) (cutoff : ℤ) (content : Str)
    (cache : List RawEntry)
    (h : ∀ e ∈ cache, cutoff ≤ e.detected →
      jsGe (similarity content e.content) threshold = false) :
    scanCache threshold cutoff content cache = none := by
  induction cache with
  | nil => rfl
  | cons e rest ih =>
    unfold scanCache
    by_cases hd : e.detected < cutoff
    · rw [if_pos hd]
      exact ih fun x hx => h x (List.mem_cons_of_mem _ hx)
    · rw [if_neg hd]
      have hm := h e (List.mem_cons_self e rest) (not_lt.mp hd)
      simp only [hm, Bool.false_eq_true, if_false]
      exact ih fun x hx => h x (List.mem_cons_of_mem _ hx)

/-- The scan loop continues into the appended suffix when the existing cache
has no match. -/
theorem scanCache_append (threshold : ℚ) (cutoff : ℤ) (content : Str)
    (l1 l2 : List RawEntry)
    (h : scanCache threshold cutoff content l1 = none) :
    scanCache threshold cutoff content (l1 ++ l2) =
      scanCache threshold cutoff content l2 := by
  induction l1 with
  | nil => rfl
  | cons e rest ih =>
    simp only [List.cons_append, scanCache] at h ⊢
    by_cases hd : e.detected < cutoff
    · rw [if_pos hd] at h ⊢
      exact ih h
    · rw [if_neg hd] at h ⊢
      by_cases hm : jsGe (similarity content e.content) threshold = true
      · rw [if_pos hm] at h
        have hne : similarity content e.content ≠ none := by
          intro hx
          rw [hx] at hm
          exact Bool.noConfusion hm
        exact absurd h hne
      · rw [if_neg hm] at h ⊢
        exact ih h

/-! ## Claim theorems -/

/-- C1: for every input IntentResult and every possible model response in both
review stages, the intent returned by `reviewIntent` never has `actionable` or
`noteworthy` equal to true when the corresponding field of the input intent
was false: `noteworthy` is passed through unchanged and `actionable` is either
passed through or forced to false, never promoted. -/
theorem C1_review_only_downgrades (intent : IntentResult)
    (result1 result2 : Option (List (Str × Json))) :
    (reviewIntent intent result1 result2).noteworthy = intent.noteworthy ∧
    ((reviewIntent intent result1 result2).actionable = intent.actionable ∨
     (reviewIntent intent result1 result2).actionable = false) := by
  unfold reviewIntent
  split
  · exact ⟨rfl, Or.inr rfl⟩
  · split
    · exact ⟨rfl, Or.inr rfl⟩
    · split
      · split
        · dsimp only
          split
          · exact ⟨rfl, Or.inl rfl⟩
          · exact ⟨rfl, Or.inl rfl⟩
        · exact ⟨rfl, Or.inl rfl⟩
      · exact ⟨rfl, Or.inl rfl⟩

/-- C8: the output of `normalizeIntentResult` with `actionable = false` always
has `due_time = null`, for every input IntentResult and every choice of
pattern predicates. -/
theorem C8_not_actionable_clears_due_time (P : IntentPatterns) (result : IntentResult) :
    (normalizeIntentResult P result).actionable = true ∨
    (normalizeIntentResult P result).due_time = none := by
  rcases result with ⟨a, n, c, d, u⟩
  unfold normalizeIntentResult hasStandaloneCancellation
  by_cases h1 : jsTrim c = []
  · simp [h1]
  · simp only [if_neg h1]
    cases hno : P.noise (jsTrim c) <;> cases hts : P.taskSignal (jsTrim c) <;>
      cases hna : P.noAction (jsTrim c) <;> cases hcan : P.canceled (jsTrim c) <;>
      cases hre : P.rescheduled (jsTrim c) <;> cases a <;> cases n <;>
      cases hnw : P.noteworthySignal (jsTrim c) <;> simp_all

/-- C7: a non-empty new text that differs from the baseline with a change
ratio strictly below the 0.15 threshold updates the baseline to the (trimmed)
new text but is not forwarded: `changedText` is null and the reason is
below-threshold. -/
theorem C7_sub_threshold_updates_baseline_only (lastText newText : Str)
    (hne : jsTrim newText ≠ [])
    (hdiff : jsTrim newText ≠ lastText)
    (hratio : changeRatio lastText (jsTrim newText) < MIN_CHANGE_RATIO) :
    detectChange lastText newText =
      ({ changedText := none, ratio := changeRatio lastText (jsTrim newText),
         reason := .belowThreshold }, jsTrim newText) := by
  unfold detectChange
  rw [if_neg hne, if_neg hdiff, if_pos hratio]

/-- C7 witness: baseline "a\nb", new text "b\na" — same line set, ratio 0. -/
theorem C7_witness :
    jsTrim "b\na".toList ≠ [] ∧
    jsTrim "b\na".toList ≠ "a\nb".toList ∧
    changeRatio "a\nb".toList (jsTrim "b\na".toList) < MIN_CHANGE_RATIO ∧
    detectChange "a\nb".toList "b\na".toList =
      ({ changedText := none,
         ratio := changeRatio "a\nb".toList (jsTrim "b\na".toList),
         reason := .belowThreshold }, jsTrim "b\na".toList) := by
  have h0 : changeRatio "a\nb".toList (jsTrim "b\na".toList) = 0 := by
    rw [show jsTrim "b\na".toList = "b\na".toList from by decide]
    exact changeRatio_eq_zero _ _ (by decide) (by decide) (by decide)
      (by decide) (by decide)
  refine ⟨by decide, by decide, by rw [h0]; norm_num [ MIN_CHANGE_RATIO], ?_⟩
  exact C7_sub_threshold_updates_baseline_only "a\nb".toList "b\na".toList
    (by decide) (by decide) (by rw [h0]; norm_num [ MIN_CHANGE_RATIO])

/-- C10: an actionable IntentResult whose due_time parses to a valid timestamp
strictly earlier than the time of recording is persisted with `dueTime` null:
the past due time never reaches the task log. -/
theorem C10_past_due_time_cleared (parseDate : Str → Option ℤ) (now : ℤ)
    (result : IntentResult) (taskCache : List TaskEntry) (s : Str) (t : ℤ)
    (hact : result.actionable = true)
    (hdue : result.due_time = some s)
    (hparse : parseDate s = some t)
    (hpast : t < now)
    (hinvalid_empty : parseDate [] = none) :
    recordAndNotify parseDate now result taskCache =
      (some { content := result.content, urgent := result.urgent, dueTime := none,
              detected := now, completed := false },
       taskCache ++ [{ content := result.content, urgent := result.urgent,
                       dueTime := none, detected := now, completed := false }]) := by
  have hs : s ≠ [] := by
    intro hx
    rw [hx, hinvalid_empty] at hparse
    exact Option.noConfusion hparse
  unfold recordAndNotify
  rw [hact]
  simp [hdue, hs, hparse, hpast]

/-- C10 witness: a due time parsing to epoch 0, recorded at epoch 5. -/
theorem C10_witness :
    (fun s => if s = "x".toList then some (0 : ℤ) else none) "x".toList = some 0 ∧
    (0 : ℤ) < 5 ∧
    (fun s => if s = "x".toList then some (0 : ℤ) else none) ([] : Str) = none ∧
    recordAndNotify (fun s => if s = "x".toList then some (0 : ℤ) else none) 5
      { actionable := true, noteworthy := false, content := "call".toList,
        due_time := some "x".toList, urgent := false } [] =
      (some { content := "call".toList, urgent := false, dueTime := none,
              detected := 5, completed := false },
       [{ content := "call".toList, urgent := false, dueTime := none,
          detected := 5, completed := false }]) :=
  ⟨by decide, by decide, by decide,
   C10_past_due_time_cleared _ 5
     { actionable := true, noteworthy := false, content := "call".toList,
       due_time := some "x".toList, urgent := false }
     [] "x".toList 0 rfl rfl (by decide) (by decide) (by decide)⟩

/-- C4: when reloading fails with a non-empty list of schema issues, the
watcher leaves the live config unchanged (`getPipeConfig` keeps answering the
previous valid config), and the emitted event is a validation-error carrying
the full formatted issue list (`formatZodIssues` formats one line per issue,
so no issue is dropped). -/
theorem C4_reload_failure_keeps_config (now : ℤ) (st : WatcherState)
    (zs : List ZodIssue) (hne : zs ≠ []) :
    getPipeConfig (watcherStep now st (.error (formatZodIssues zs))).1 =
      getPipeConfig st ∧
    (watcherStep now st (.error (formatZodIssues zs))).2 =
      some (buildChangeEvent now [] (some (formatZodIssues zs))) ∧
    (buildChangeEvent now [] (some (formatZodIssues zs))).type = .validationError ∧
    (buildChangeEvent now [] (some (formatZodIssues zs))).issues =
      some (formatZodIssues zs) ∧
    (formatZodIssues zs).length = zs.length := by
  have hfe : formatZodIssues zs ≠ [] := by
    intro hx
    exact hne (List.map_eq_nil_iff.mp hx)
  refine ⟨rfl, rfl, ?_, ?_, List.length_map _ _⟩ <;>
    simp [buildChangeEvent, hfe]

/-- C4 witness: two schema issues, previous config live. -/
theorem C4_witness :
    ([⟨["a".toList], "bad".toList⟩, ⟨["b".toList], "worse".toList⟩] : List ZodIssue) ≠ [] ∧
    (getPipeConfig (watcherStep 7 ⟨some defaultPipeConfig, none⟩
        (.error (formatZodIssues
          [⟨["a".toList], "bad".toList⟩, ⟨["b".toList], "worse".toList⟩]))).1 =
      getPipeConfig ⟨some defaultPipeConfig, none⟩ ∧
    (watcherStep 7 ⟨some defaultPipeConfig, none⟩
        (.error (formatZodIssues
          [⟨["a".toList], "bad".toList⟩, ⟨["b".toList], "worse".toList⟩]))).2 =
      some (buildChangeEvent 7 [] (some (formatZodIssues
          [⟨["a".toList], "bad".toList⟩, ⟨["b".toList], "worse".toList⟩]))) ∧
    (buildChangeEvent 7 [] (some (formatZodIssues
          [⟨["a".toList], "bad".toList⟩, ⟨["b".toList], "worse".toList⟩]))).type =
      .validationError ∧
    (buildChangeEvent 7 [] (some (formatZodIssues
          [⟨["a".toList], "bad".toList⟩, ⟨["b".toList], "worse".toList⟩]))).issues =
      some (formatZodIssues
          [⟨["a".toList], "bad".toList⟩, ⟨["b".toList], "worse".toList⟩]) ∧
    (formatZodIssues
          [⟨["a".toList], "bad".toList⟩, ⟨["b".toList], "worse".toList⟩]).length =
      ([⟨["a".toList], "bad".toList⟩, ⟨["b".toList], "worse".toList⟩] : List ZodIssue).length) :=
  ⟨by simp, C4_reload_failure_keeps_config 7 ⟨some defaultPipeConfig, none⟩ _ (by simp)⟩

/-- C6: every configuration edit whose changed-field set contains a
restart-required field (capture.mode or capture.hotkeyHoldMs) yields an event
of type restart-required, regardless of which hot-reload fields changed in
the same edit. -/
theorem C6_restart_required_dominates (now : ℤ) (previous next : PipeConfig)
    (hchg : previous.capture.mode ≠ next.capture.mode ∨
            previous.capture.hotkeyHoldMs ≠ next.capture.hotkeyHoldMs) :
    (buildChangeEvent now (getChangedFields previous next) none).type =
      .restartRequired := by
  have hmem : ∃ f ∈ getChangedFields previous next,
      RESTART_REQUIRED_FIELDS.contains f = true := by
    rcases hchg with h | h
    · refine ⟨"capture.mode".toList, ?_, by decide⟩
      unfold getChangedFields
      rw [if_neg h]
      simp
    · refine ⟨"capture.hotkeyHoldMs".toList, ?_, by decide⟩
      unfold getChangedFields
      rw [if_neg h]
      simp
  rcases hmem with ⟨f, hf, hr⟩
  have hfil : f ∈ (getChangedFields previous next).filter
      (fun p => RESTART_REQUIRED_FIELDS.contains p) :=
    List.mem_filter.mpr ⟨hf, hr⟩
  have hlen : 0 < ((getChangedFields previous next).filter
      (fun p => RESTART_REQUIRED_FIELDS.contains p)).length :=
    List.length_pos.mpr (List.ne_nil_of_mem hfil)
  unfold buildChangeEvent
  simp only [Option.getD_none]
  rw [if_neg (by simp), if_pos hlen]

/-- C6 witness: capture mode flips and a hot-reload field (outputLanguage)
changes in the same edit; the event is still restart-required. -/
theorem C6_witness :
    ({ defaultPipeConfig with
        capture := { mode := .always, hotkeyHoldMs := 500 } } : PipeConfig).capture.mode ≠
      ({ defaultPipeConfig with outputLanguage := "en".toList, capture := { mode := .hotkey, hotkeyHoldMs := 500 } } : PipeConfig).capture.mode ∧
    (buildChangeEvent 3
      (getChangedFields
        { defaultPipeConfig with capture := { mode := .always, hotkeyHoldMs := 500 } }
        { defaultPipeConfig with outputLanguage := "en".toList, capture := { mode := .hotkey, hotkeyHoldMs := 500 } }) none).type = .restartRequired :=
  ⟨by decide,
   C6_restart_required_dominates 3
     { defaultPipeConfig with capture := { mode := .always, hotkeyHoldMs := 500 } }
     { defaultPipeConfig with outputLanguage := "en".toList, capture := { mode := .hotkey, hotkeyHoldMs := 500 } }
     (Or.inl (by decide))⟩

/-- C2: starting from a cache with no in-window entry similar enough to the
content, and a track threshold at most 1, the first check passes and appends
the content to both the in-memory cache and the backing log in the same call,
and an immediately repeated check fails. -/
theorem C2_check_then_insert_atomic (cfg : DedupRuntimeConfig) (now : ℤ)
    (content : Str) (mode : DedupMode) (st : DedupState)
    (hlb : 0 ≤ cfg.lookbackDays)
    (hthr : trackThreshold cfg mode ≤ 1)
    (hfresh : ∀ e ∈ st.cache,
      now - cfg.lookbackDays * (24 * 60 * 60 * 1000) ≤ e.detected →
      jsGe (similarity content e.content) (trackThreshold cfg mode) = false) :
    (checkRawCache cfg now content mode st).1.passed = true ∧
    (checkRawCache cfg now content mode st).2.cache =
      st.cache ++ [{ content := content, detected := now }] ∧
    (checkRawCache cfg now content mode st).2.log =
      st.log ++ [formatRawLine { content := content, detected := now }] ∧
    (checkRawCache cfg now content mode
      (checkRawCache cfg now content mode st).2).1.passed = false := by
  have hscan1 : scanCache (trackThreshold cfg mode)
      (now - cfg.lookbackDays * (24 * 60 * 60 * 1000)) content st.cache = none :=
    scanCache_eq_none _ _ _ _ hfresh
  have hcutoff_le : now - cfg.lookbackDays * (24 * 60 * 60 * 1000) ≤ now := by
    have h0 : (0 : ℤ) ≤ cfg.lookbackDays * (24 * 60 * 60 * 1000) :=
      mul_nonneg hlb (by norm_num)
    omega
  have hscan2 : scanCache (trackThreshold cfg mode)
      (now - cfg.lookbackDays * (24 * 60 * 60 * 1000)) content
      (st.cache ++ [({ content := content, detected := now } : RawEntry)]) = some 1 := by
    rw [scanCache_append _ _ _ _ _ hscan1]
    simp only [scanCache]
    rw [if_neg (not_lt.mpr hcutoff_le)]
    simp only [similarity_self, jsGe]
    rw [if_pos (by simpa using hthr)]
  refine ⟨?_, ?_, ?_, ?_⟩ <;>
    simp only [checkRawCache, hscan1, hscan2]

/-- C2 witness: empty cache, default thresholds, content "hello". -/
theorem C2_witness :
    (0 : ℤ) ≤ (7 : ℤ) ∧
    trackThreshold ⟨3/5, 4/5, 7⟩ .actionable ≤ 1 ∧
    ((checkRawCache ⟨3/5, 4/5, 7⟩ 0 "hello".toList .actionable ⟨[], []⟩).1.passed = true ∧
     (checkRawCache ⟨3/5, 4/5, 7⟩ 0 "hello".toList .actionable ⟨[], []⟩).2.cache =
       ([] : List RawEntry) ++ [{ content := "hello".toList, detected := 0 }] ∧
     (checkRawCache ⟨3/5, 4/5, 7⟩ 0 "hello".toList .actionable ⟨[], []⟩).2.log =
       ([] : List Str) ++ [formatRawLine { content := "hello".toList, detected := 0 }] ∧
     (checkRawCache ⟨3/5, 4/5, 7⟩ 0 "hello".toList .actionable
       (checkRawCache ⟨3/5, 4/5, 7⟩ 0 "hello".toList .actionable ⟨[], []⟩).2).1.passed =
       false) :=
  ⟨by decide, by norm_num [trackThreshold],
   C2_check_then_insert_atomic ⟨3/5, 4/5, 7⟩ 0 "hello".toList .actionable ⟨[], []⟩
     (by decide) (by norm_num [trackThreshold]) (by simp)⟩

/-- C3 counterexample: "a" and "a      " (six trailing spaces) are equal after
lowercasing and whitespace normalization, yet `similarity` returns 0, not 1:
the 50% length fast-reject runs before normalization. -/
theorem C3_counterexample :
    simNormalize "a".toList = simNormalize "a      ".toList ∧
    similarity "a".toList "a      ".toList = some 0 ∧
    similarity "a".toList "a      ".toList ≠ some 1 := by
  have hsim : similarity "a".toList "a      ".toList = some 0 := by
    unfold similarity
    rw [if_neg (by decide), if_neg (by decide), if_pos ?hc]
    case hc =>
      rw [ratio_gt_half _ _ (by decide)]
      decide
  exact ⟨by decide, hsim, by rw [hsim]; simp⟩

/-- C3 amended: for every pair of strings that are equal after lowercasing and
whitespace normalization AND whose raw lengths do not differ by more than 50%
of the longer (so the fast reject does not fire), `similarity` is 1. -/
theorem C3_amended_normalized_equal_similarity_one (a b : Str)
    (hlen : ¬ ((((a.length : ℤ) - (b.length : ℤ)).natAbs : ℚ) /
        ((max a.length b.length : ℕ) : ℚ) > 1 / 2))
    (hnorm : simNormalize a = simNormalize b) :
    similarity a b = some 1 := by
  unfold similarity
  by_cases h0 : a.length = 0 ∧ b.length = 0
  · rw [if_pos h0]
  · rw [if_neg h0]
    by_cases h1 : a.length = 0 ∨ b.length = 0
    · exfalso
      apply hlen
      rw [ratio_gt_half _ _ (by omega)]
      omega
    · rw [if_neg h1, if_neg hlen, if_pos hnorm]

/-- C3 amended witness: "A b" and "a  b" normalize equally, lengths 3 and 4. -/
theorem C3_amended_witness :
    simNormalize "A b".toList = simNormalize "a  b".toList ∧
    similarity "A b".toList "a  b".toList = some 1 :=
  ⟨by decide,
   C3_amended_normalized_equal_similarity_one "A b".toList "a  b".toList
     (by rw [ratio_gt_half _ _ (by decide)]; decide) (by decide)⟩

/-- C9 counterexample: "a" and "b" are non-empty, but `similarity` evaluates
`0 / 0`, i.e. NaN (both normalized strings are single characters, so both
bigram sets are empty) — not a finite number in [0, 1]. -/
theorem C9_counterexample :
    "a".toList ≠ ([] : Str) ∧ "b".toList ≠ ([] : Str) ∧
    similarity "a".toList "b".toList = none := by
  refine ⟨by decide, by decide, ?_⟩
  unfold similarity
  rw [if_neg (by decide), if_neg (by decide), if_neg ?hc, if_neg (by decide)]
  case hc =>
    rw [ratio_gt_half _ _ (by decide)]
    decide
  dsimp only
  rw [show (bigrams (simNormalize "a".toList) ∩ bigrams (simNormalize "b".toList)).card
      = 0 from by decide,
    show (bigrams (simNormalize "a".toList)).card = 0 from by decide,
    show (bigrams (simNormalize "b".toList)).card = 0 from by decide]
  unfold jsDiv
  rw [if_pos (by norm_num)]

/-- C9 amended: for every pair of non-empty strings, `similarity` returns
either NaN (when both normalized strings have fewer than two characters and
differ) or a finite number in the closed interval [0, 1]. -/
theorem C9_amended_similarity_bounded (a b : Str) (ha : a ≠ []) (hb : b ≠ []) :
    similarity a b = none ∨
    ∃ q : ℚ, similarity a b = some q ∧ 0 ≤ q ∧ q ≤ 1 := by
  unfold similarity
  by_cases h0 : a.length = 0 ∧ b.length = 0
  · rw [if_pos h0]
    exact Or.inr ⟨1, rfl, by norm_num, le_refl 1⟩
  · rw [if_neg h0]
    by_cases h1 : a.length = 0 ∨ b.length = 0
    · rw [if_pos h1]
      exact Or.inr ⟨0, rfl, le_refl 0, by norm_num⟩
    · rw [if_neg h1]
      by_cases h2 : ((((a.length : ℤ) - (b.length : ℤ)).natAbs : ℚ) /
          ((max a.length b.length : ℕ) : ℚ)) > 1 / 2
      · rw [if_pos h2]
        exact Or.inr ⟨0, rfl, le_refl 0, by norm_num⟩
      · rw [if_neg h2]
        by_cases h3 : simNormalize a = simNormalize b
        · rw [if_pos h3]
          exact Or.inr ⟨1, rfl, by norm_num, le_refl 1⟩
        · rw [if_neg h3]
          dsimp only
          set A := bigrams (simNormalize a) with hA
          set B := bigrams (simNormalize b) with hB
          unfold jsDiv
          by_cases h4 : ((A.card : ℚ) + (B.card : ℚ)) = 0
          · rw [if_pos h4]
            exact Or.inl rfl
          · rw [if_neg h4]
            refine Or.inr ⟨_, rfl, ?_, ?_⟩
            · apply div_nonneg
              · positivity
              · positivity
            · have hpos : (0 : ℚ) < (A.card : ℚ) + (B.card : ℚ) := by
                rcases lt_or_eq_of_le (by positivity :
                    (0 : ℚ) ≤ (A.card : ℚ) + (B.card : ℚ)) with h | h
                · exact h
                · exact absurd h.symm h4
              rw [div_le_one hpos]
              have hle1 : (A ∩ B).card ≤ A.card :=
                Finset.card_le_card Finset.inter_subset_left
              have hle2 : (A ∩ B).card ≤ B.card :=
                Finset.card_le_card Finset.inter_subset_right
              have hsum : 2 * (A ∩ B).card ≤ A.card + B.card := by omega
              exact_mod_cast hsum

/-- C9 amended witness: equal non-empty strings give 1 ∈ [0, 1]. -/
theorem C9_amended_witness :
    "ab".toList ≠ ([] : Str) ∧ "ab".toList ≠ ([] : Str) ∧
    (similarity "ab".toList "ab".toList = none ∨
     ∃ q : ℚ, similarity "ab".toList "ab".toList = some q ∧ 0 ≤ q ∧ q ≤ 1) :=
  ⟨by decide, by decide,
   C9_amended_similarity_bounded "ab".toList "ab".toList (by decide) (by decide)⟩
end LivePipe

namespace LivePipe

/-! ## Config round-trip helper lemmas -/

theorem dropWhile_dropWhile (p : Char → Bool) (l : Str) :
    (l.dropWhile p).dropWhile p = l.dropWhile p := by
  induction l with
  | nil => rfl
  | cons a t ih =>
    by_cases h : p a
    · simp only [List.dropWhile_cons, h, if_true]
      exact ih
    · simp [List.dropWhile_cons, h]

theorem dropWhile_head_not (p : Char → Bool) (l : Str) :
    l.dropWhile p = [] ∨ ∃ a t, l.dropWhile p = a :: t ∧ p a = false := by
  induction l with
  | nil => exact Or.inl rfl
  | cons a t ih =>
    by_cases h : p a
    · simpa [List.dropWhile_cons, h] using ih
    · exact Or.inr ⟨a, t, by simp [List.dropWhile_cons, h], by simpa using h⟩

theorem jsTrim_idem (s : Str) : jsTrim (jsTrim s) = jsTrim s := by
  unfold jsTrim
  have hstep1 : (((s.dropWhile isWs).reverse.dropWhile isWs).reverse).dropWhile isWs =
      ((s.dropWhile isWs).reverse.dropWhile isWs).reverse := by
    rcases hv : ((s.dropWhile isWs).reverse.dropWhile isWs).reverse with _ | ⟨b, t'⟩
    · rfl
    · have hu2 : s.dropWhile isWs =
          ((s.dropWhile isWs).reverse.dropWhile isWs).reverse ++
            ((s.dropWhile isWs).reverse.takeWhile isWs).reverse := by
        conv_lhs => rw [← List.reverse_reverse (s.dropWhile isWs),
          ← List.takeWhile_append_dropWhile isWs (s.dropWhile isWs).reverse]
        rw [List.reverse_append]
      rw [hv] at hu2
      have hb : isWs b = false := by
        rcases dropWhile_head_not isWs s with h0 | ⟨a, t, ha, hpa⟩
        · rw [h0] at hu2
          exact absurd hu2.symm (by simp)
        · rw [ha] at hu2
          have : a = b := by
            have := hu2
            simp only [List.cons_append] at this
            exact (List.cons.injEq _ _ _ _ ▸ this).1
          rw [← this]
          exact hpa
      rw [List.dropWhile_cons, hb]
      simp
  rw [hstep1, List.reverse_reverse, dropWhile_dropWhile]

theorem except_map_ok {α β : Type} (f : α → β) (r : Except (List Str) α) (b : β)
    (h : r.map f = .ok b) : ∃ a, r = .ok a ∧ f a = b := by
  cases r with
  | error e => exact absurd h (by simp [Except.map])
  | ok a =>
    refine ⟨a, rfl, ?_⟩
    simpa [Except.map] using h

theorem zPair_ok {α β : Type} {ra : ZResult α} {rb : ZResult β} {p : α × β}
    (h : zPair ra rb = .ok p) : ra = .ok p.1 ∧ rb = .ok p.2 := by
  cases ra with
  | error e => cases rb <;> exact absurd h (by simp [zPair])
  | ok a =>
    cases rb with
    | error e => exact absurd h (by simp [zPair])
    | ok b =>
      have hp : (a, b) = p := by simpa [zPair] using h
      exact ⟨by rw [← hp], by rw [← hp]⟩

theorem zDefault_ok {α : Type} {d : α} {f : Json → ZResult α} {oj : Option Json} {v : α}
    (h : zDefault d f oj = .ok v) : v = d ∨ ∃ j, oj = some j ∧ f j = .ok v := by
  cases oj with
  | none => exact Or.inl (by simpa [zDefault] using h.symm)
  | some j => exact Or.inr ⟨j, rfl, h⟩

theorem zRequired_ok {α : Type} {p : Str} {f : Json → ZResult α} {oj : Option Json} {v : α}
    (h : zRequired p f oj = .ok v) : ∃ j, oj = some j ∧ f j = .ok v := by
  cases oj with
  | none => exact absurd h (by simp [zRequired])
  | some j => exact ⟨j, rfl, h⟩

theorem zOptional_ok {α : Type} {f : Json → ZResult α} {oj : Option Json} {v : Option α}
    (h : zOptional f oj = .ok v) : v = none ∨ ∃ j x, oj = some j ∧ f j = .ok x ∧ v = some x := by
  cases oj with
  | none => exact Or.inl (by simpa [zOptional] using h.symm)
  | some j =>
    obtain ⟨x, hx, hv⟩ := except_map_ok _ _ _ h
    exact Or.inr ⟨j, x, rfl, hx, hv.symm⟩

theorem zStrTrim_ok {p : Str} {j : Json} {v : Str}
    (h : zStrTrim p j = .ok v) : jsTrim v = v := by
  cases j
  case str s =>
    simp only [zStrTrim, zStr, Except.map] at h
    obtain rfl : jsTrim s = v := by simpa using h
    exact jsTrim_idem s
  all_goals simp [zStrTrim, zStr, Except.map] at h

theorem zStrTrimMin1_ok {p : Str} {j : Json} {v : Str}
    (h : zStrTrimMin1 p j = .ok v) : jsTrim v = v ∧ v ≠ [] := by
  cases j
  case str s =>
    simp only [zStrTrimMin1, zStr] at h
    by_cases ht : jsTrim s = []
    · rw [if_pos ht] at h
      exact absurd h (by simp)
    · rw [if_neg ht] at h
      obtain rfl : jsTrim s = v := by simpa using h
      exact ⟨jsTrim_idem s, ht⟩
  all_goals simp [zStrTrimMin1, zStr] at h

theorem zIntMin1_ok {p : Str} {j : Json} {v : ℤ}
    (h : zIntMin1 p j = .ok v) : 1 ≤ v := by
  cases j
  case num q =>
    simp only [zIntMin1] at h
    by_cases hden : q.den = 1
    · by_cases hmin : (1 : ℚ) ≤ q
      · rw [if_pos (by simp [hden, hmin])] at h
        obtain rfl : q.num = v := by simpa using h
        have hq : ((q.num : ℤ) : ℚ) = q := by
          rw [← Rat.num_div_den q, hden]
          simp
        rw [← hq] at hmin
        exact_mod_cast hmin
      · rw [if_neg (by simp [hden, hmin])] at h
        exact absurd h (by simp)
    · by_cases hmin : (1 : ℚ) ≤ q
      · rw [if_neg (by simp [hden, hmin])] at h
        exact absurd h (by simp)
      · rw [if_neg (by simp [hden, hmin])] at h
        exact absurd h (by simp)
  all_goals simp [zIntMin1] at h

theorem zRat01_ok {p : Str} {j : Json} {v : ℚ}
    (h : zRat01 p j = .ok v) : 0 ≤ v ∧ v ≤ 1 := by
  cases j
  case num q =>
    simp only [zRat01] at h
    by_cases h0 : (0 : ℚ) ≤ q
    · by_cases h1 : q ≤ 1
      · rw [if_pos (by simp [h0, h1])] at h
        obtain rfl : q = v := by simpa using h
        exact ⟨h0, h1⟩
      · rw [if_neg (by simp [h0, h1])] at h
        exact absurd h (by simp)
    · by_cases h1 : q ≤ 1
      · rw [if_neg (by simp [h0, h1])] at h
        exact absurd h (by simp)
      · rw [if_neg (by simp [h0, h1])] at h
        exact absurd h (by simp)
  all_goals simp [zRat01] at h

theorem zArrOf_ok {α : Type} {f : Json → ZResult α} {items : List Json} {l : List α}
    (h : zArrOf f items = .ok l) : ∀ x ∈ l, ∃ j ∈ items, f j = .ok x := by
  induction items generalizing l with
  | nil =>
    obtain rfl : ([] : List α) = l := by simpa [zArrOf] using h
    intro x hx
    exact absurd hx (by simp)
  | cons j rest ih =>
    obtain ⟨pr, hpr, hcons⟩ := except_map_ok _ _ _ h
    obtain ⟨h1, h2⟩ := zPair_ok hpr
    intro x hx
    rw [← hcons] at hx
    rcases List.mem_cons.mp hx with rfl | hx2
    · exact ⟨j, by simp, h1⟩
    · obtain ⟨j', hj', hfj'⟩ := ih h2 x hx2
      exact ⟨j', by simp [hj'], hfj'⟩

theorem reviewIssues_nil {r : ReviewConfig} (h : reviewIssues r = [])
    (he : r.enabled = true) :
    r.provider ≠ [] ∧ r.model ≠ [] ∧ r.apiKey ≠ [] := by
  unfold reviewIssues at h
  rw [he] at h
  simp only [Bool.not_true, if_false] at h
  refine ⟨?_, ?_, ?_⟩ <;> intro hx <;> rw [hx] at h <;> simp at h

theorem webhookIssues_nil {w : WebhookConfig} (h : webhookIssues w = []) :
    ¬ (w.provider = WebhookProvider.telegram ∧ (w.chatId = none ∨ w.chatId = some [])) := by
  intro hc
  unfold webhookIssues at h
  rw [if_pos hc] at h
  exact absurd h (by simp)

theorem zRefine_ok {α : Type} {issues : α → List Str} {r : ZResult α} {v : α}
    (h : zRefine issues r = .ok v) : r = .ok v ∧ issues v = [] := by
  cases r with
  | error e => exact absurd h (by simp [zRefine])
  | ok x =>
    simp only [zRefine] at h
    by_cases hi : issues x = []
    · rw [if_pos hi] at h
      obtain rfl : x = v := by simpa using h
      exact ⟨rfl, hi⟩
    · rw [if_neg hi] at h
      exact absurd h (by simp)

theorem parseWebhookConfig_ok {j : Json} {w : WebhookConfig}
    (h : parseWebhookConfig j = .ok w) : ValidWebhook w := by
  cases j
  case obj kvs =>
    simp only [parseWebhookConfig] at h
    obtain ⟨hm, hiss⟩ := zRefine_ok h
    obtain ⟨pr, hpr, hmk⟩ := except_map_ok _ _ _ hm
    obtain ⟨h12, h345⟩ := zPair_ok hpr
    obtain ⟨hurl, _hen⟩ := zPair_ok h12
    obtain ⟨_hprov, h45⟩ := zPair_ok h345
    obtain ⟨_hhead, hchat⟩ := zPair_ok h45
    obtain ⟨ju, _, hju⟩ := zRequired_ok hurl
    obtain ⟨hut, hune⟩ := zStrTrimMin1_ok hju
    have hwurl : w.url = pr.1.1 := by rw [← hmk]
    have hwchat : w.chatId = pr.2.2.2 := by rw [← hmk]
    refine ⟨by rw [hwurl]; exact hut, by rw [hwurl]; exact hune, ?_,
      webhookIssues_nil hiss⟩
    intro cc hcc
    rcases zOptional_ok hchat with hnone | ⟨jc, xc, _, hjc, hxc⟩
    · rw [hwchat, hnone] at hcc
      exact absurd hcc (by simp)
    · rw [hwchat, hxc] at hcc
      obtain rfl : xc = cc := by simpa using hcc
      exact zStrTrim_ok hjc
  all_goals simp [parseWebhookConfig] at h


theorem zArr_ok {α : Type} {p : Str} {f : Json → ZResult α} {j : Json} {l : List α}
    (h : zArr p f j = .ok l) : ∀ x ∈ l, ∃ ji, f ji = .ok x := by
  cases j
  case arr items =>
    simp only [zArr] at h
    intro x hx
    obtain ⟨ji, _, hji⟩ := zArrOf_ok h x hx
    exact ⟨ji, hji⟩
  all_goals simp [zArr] at h

theorem parseFilterConfig_ok {oj : Option Json} {f : FilterConfig}
    (h : parseFilterConfig oj = .ok f) : 1 ≤ f.minTextLength := by
  rcases oj with _ | j
  · obtain rfl : DEFAULT_FILTER_CONFIG = f := by
      simpa [parseFilterConfig] using h
    decide
  · cases j
    case obj kvs =>
      simp only [parseFilterConfig] at h
      obtain ⟨pr, hpr, hmk⟩ := except_map_ok _ _ _ h
      obtain ⟨_h12, h3⟩ := zPair_ok hpr
      have hfm : f.minTextLength = pr.2 := by rw [← hmk]
      rw [hfm]
      rcases zDefault_ok h3 with hd | ⟨jv, _, hj⟩
      · rw [hd]; decide
      · exact zIntMin1_ok hj
    all_goals simp [parseFilterConfig] at h

theorem parseCaptureConfig_ok {oj : Option Json} {cap : CaptureConfig}
    (h : parseCaptureConfig oj = .ok cap) : 1 ≤ cap.hotkeyHoldMs := by
  rcases oj with _ | j
  · obtain rfl : DEFAULT_CAPTURE_CONFIG = cap := by
      simpa [parseCaptureConfig] using h
    decide
  · cases j
    case obj kvs =>
      simp only [parseCaptureConfig] at h
      obtain ⟨pr, hpr, hmk⟩ := except_map_ok _ _ _ h
      obtain ⟨_h1, h2⟩ := zPair_ok hpr
      have hcm : cap.hotkeyHoldMs = pr.2 := by rw [← hmk]
      rw [hcm]
      rcases zDefault_ok h2 with hd | ⟨jv, _, hj⟩
      · rw [hd]; decide
      · exact zIntMin1_ok hj
    all_goals simp [parseCaptureConfig] at h

theorem parseReviewConfig_ok {oj : Option Json} {r : ReviewConfig}
    (h : parseReviewConfig oj = .ok r) :
    jsTrim r.provider = r.provider ∧ jsTrim r.model = r.model ∧
    (r.enabled = true → r.provider ≠ [] ∧ r.model ≠ [] ∧ r.apiKey ≠ []) := by
  rcases oj with _ | j
  · obtain rfl : DEFAULT_REVIEW_CONFIG = r := by
      simpa [parseReviewConfig] using h
    exact ⟨rfl, rfl, fun he => absurd he (by decide)⟩
  · cases j
    case obj kvs =>
      simp only [parseReviewConfig] at h
      obtain ⟨hm, hiss⟩ := zRefine_ok h
      obtain ⟨pr, hpr, hmk⟩ := except_map_ok _ _ _ hm
      obtain ⟨h1234, _h5⟩ := zPair_ok hpr
      obtain ⟨h12, h34⟩ := zPair_ok h1234
      obtain ⟨_hen, hprov⟩ := zPair_ok h12
      obtain ⟨hmod, _hkey⟩ := zPair_ok h34
      have hp : r.provider = pr.1.1.2 := by rw [← hmk]
      have hmo : r.model = pr.1.2.1 := by rw [← hmk]
      refine ⟨?_, ?_, fun he => reviewIssues_nil hiss he⟩
      · rw [hp]
        rcases zDefault_ok hprov with hd | ⟨jv, _, hj⟩
        · rw [hd]; rfl
        · exact zStrTrim_ok hj
      · rw [hmo]
        rcases zDefault_ok hmod with hd | ⟨jv, _, hj⟩
        · rw [hd]; rfl
        · exact zStrTrim_ok hj
    all_goals simp [parseReviewConfig] at h

theorem parseNotificationConfig_ok {oj : Option Json} {n : NotificationConfig}
    (h : parseNotificationConfig oj = .ok n) : ∀ w ∈ n.webhooks, ValidWebhook w := by
  rcases oj with _ | j
  · obtain rfl : DEFAULT_NOTIFICATION_CONFIG = n := by
      simpa [parseNotificationConfig] using h
    intro w hw
    exact absurd hw (by simp [DEFAULT_NOTIFICATION_CONFIG])
  · cases j
    case obj kvs =>
      simp only [parseNotificationConfig] at h
      obtain ⟨pr, hpr, hmk⟩ := except_map_ok _ _ _ h
      obtain ⟨_h1, h2⟩ := zPair_ok hpr
      have hwh : n.webhooks = pr.2 := by rw [← hmk]
      rw [hwh]
      rcases zDefault_ok h2 with hd | ⟨jv, _, hj⟩
      · rw [hd]
        intro w hw
        exact absurd hw (by simp [DEFAULT_NOTIFICATION_CONFIG])
      · intro w hw
        obtain ⟨ji, hji⟩ := zArr_ok hj w hw
        exact parseWebhookConfig_ok hji
    all_goals simp [parseNotificationConfig] at h

theorem parseRemindersConfig_ok {oj : Option Json} {r : RemindersConfig}
    (h : parseRemindersConfig oj = .ok r) : jsTrim r.list = r.list ∧ r.list ≠ [] := by
  rcases oj with _ | j
  · obtain rfl : DEFAULT_REMINDERS_CONFIG = r := by
      simpa [parseRemindersConfig] using h
    exact ⟨by decide, by decide⟩
  · cases j
    case obj kvs =>
      simp only [parseRemindersConfig] at h
      obtain ⟨pr, hpr, hmk⟩ := except_map_ok _ _ _ h
      obtain ⟨_h1, h2⟩ := zPair_ok hpr
      have hl : r.list = pr.2 := by rw [← hmk]
      rw [hl]
      rcases zDefault_ok h2 with hd | ⟨jv, _, hj⟩
      · rw [hd]; exact ⟨by decide, by decide⟩
      · exact zStrTrimMin1_ok hj
    all_goals simp [parseRemindersConfig] at h

theorem parseNotesConfig_ok {oj : Option Json} {n : NotesConfig}
    (h : parseNotesConfig oj = .ok n) : jsTrim n.folder = n.folder ∧ n.folder ≠ [] := by
  rcases oj with _ | j
  · obtain rfl : DEFAULT_NOTES_CONFIG = n := by
      simpa [parseNotesConfig] using h
    exact ⟨by decide, by decide⟩
  · cases j
    case obj kvs =>
      simp only [parseNotesConfig] at h
      obtain ⟨pr, hpr, hmk⟩ := except_map_ok _ _ _ h
      obtain ⟨_h1, h2⟩ := zPair_ok hpr
      have hl : n.folder = pr.2 := by rw [← hmk]
      rw [hl]
      rcases zDefault_ok h2 with hd | ⟨jv, _, hj⟩
      · rw [hd]; exact ⟨by decide, by decide⟩
      · exact zStrTrimMin1_ok hj
    all_goals simp [parseNotesConfig] at h

theorem parseDedupConfig_ok {oj : Option Json} {d : DedupConfig}
    (h : parseDedupConfig oj = .ok d) :
    0 ≤ d.actionableThreshold ∧ d.actionableThreshold ≤ 1 ∧
    0 ≤ d.noteworthyThreshold ∧ d.noteworthyThreshold ≤ 1 ∧
    1 ≤ d.lookbackDays := by
  rcases oj with _ | j
  · obtain rfl : DEFAULT_DEDUP_CONFIG = d := by
      simpa [parseDedupConfig] using h
    refine ⟨by norm_num [DEFAULT_DEDUP_CONFIG], by norm_num [DEFAULT_DEDUP_CONFIG],
      by norm_num [DEFAULT_DEDUP_CONFIG], by norm_num [DEFAULT_DEDUP_CONFIG], by decide⟩
  · cases j
    case obj kvs =>
      simp only [parseDedupConfig] at h
      obtain ⟨pr, hpr, hmk⟩ := except_map_ok _ _ _ h
      obtain ⟨h12, h3⟩ := zPair_ok hpr
      obtain ⟨h1, h2⟩ := zPair_ok h12
      have ha : d.actionableThreshold = pr.1.1 := by rw [← hmk]
      have hn : d.noteworthyThreshold = pr.1.2 := by rw [← hmk]
      have hl : d.lookbackDays = pr.2 := by rw [← hmk]
      rw [ha, hn, hl]
      have hpa : 0 ≤ pr.1.1 ∧ pr.1.1 ≤ 1 := by
        rcases zDefault_ok h1 with hd | ⟨jv, _, hj⟩
        · rw [hd]; constructor <;> norm_num [DEFAULT_DEDUP_CONFIG]
        · exact zRat01_ok hj
      have hpn : 0 ≤ pr.1.2 ∧ pr.1.2 ≤ 1 := by
        rcases zDefault_ok h2 with hd | ⟨jv, _, hj⟩
        · rw [hd]; constructor <;> norm_num [DEFAULT_DEDUP_CONFIG]
        · exact zRat01_ok hj
      have hpl : 1 ≤ pr.2 := by
        rcases zDefault_ok h3 with hd | ⟨jv, _, hj⟩
        · rw [hd]; decide
        · exact zIntMin1_ok hj
      exact ⟨hpa.1, hpa.2, hpn.1, hpn.2, hpl⟩
    all_goals simp [parseDedupConfig] at h

/-- Every successfully parsed PipeConfig satisfies the schema invariants. -/
theorem parsePipeConfig_valid {j : Json} {c : PipeConfig}
    (h : parsePipeConfig j = .ok c) : ValidConfig c := by
  cases j
  case obj kvs =>
    simp only [parsePipeConfig] at h
    obtain ⟨pr, hpr, hmk⟩ := except_map_ok _ _ _ h
    obtain ⟨hL, hR⟩ := zPair_ok hpr
    obtain ⟨hLL, hLR⟩ := zPair_ok hL
    obtain ⟨hfil, hcap⟩ := zPair_ok hLL
    obtain ⟨hrev, hlang⟩ := zPair_ok hLR
    obtain ⟨hRL, hRR⟩ := zPair_ok hR
    obtain ⟨hnot, hrem⟩ := zPair_ok hRL
    obtain ⟨hnotes, hded⟩ := zPair_ok hRR
    have hcf : c.filter = pr.1.1.1 := by rw [← hmk]
    have hcc : c.capture = pr.1.1.2 := by rw [← hmk]
    have hcr : c.review = pr.1.2.1 := by rw [← hmk]
    have hcl : c.outputLanguage = pr.1.2.2 := by rw [← hmk]
    have hcn : c.notification = pr.2.1.1 := by rw [← hmk]
    have hcrem : c.reminders = pr.2.1.2 := by rw [← hmk]
    have hcnotes : c.notes = pr.2.2.1 := by rw [← hmk]
    have hcd : c.dedup = pr.2.2.2 := by rw [← hmk]
    have hlangf : jsTrim c.outputLanguage = c.outputLanguage ∧ c.outputLanguage ≠ [] := by
      rw [hcl]
      rcases zDefault_ok hlang with hd | ⟨jv, _, hj⟩
      · rw [hd]; exact ⟨by decide, by decide⟩
      · exact zStrTrimMin1_ok hj
    have hrevf := parseReviewConfig_ok (by rw [← hcr] at hrev; exact hrev)
    have hdedf := parseDedupConfig_ok (by rw [← hcd] at hded; exact hded)
    have hremf := parseRemindersConfig_ok (by rw [← hcrem] at hrem; exact hrem)
    have hnotesf := parseNotesConfig_ok (by rw [← hcnotes] at hnotes; exact hnotes)
    have hnotf := parseNotificationConfig_ok (by rw [← hcn] at hnot; exact hnot)
    have hfilf := parseFilterConfig_ok (by rw [← hcf] at hfil; exact hfil)
    have hcapf := parseCaptureConfig_ok (by rw [← hcc] at hcap; exact hcap)
    exact ⟨hfilf, hcapf, hrevf.1, hrevf.2.1, hrevf.2.2, hlangf.1, hlangf.2, hnotf,
      hremf.1, hremf.2, hnotesf.1, hnotesf.2,
      hdedf.1, hdedf.2.1, hdedf.2.2.1, hdedf.2.2.2.1, hdedf.2.2.2.2⟩
  all_goals simp [parsePipeConfig] at h


/-! ## Re-parsing a serialized valid config -/

theorem zDefault_some {α : Type} (d : α) (f : Json → ZResult α) (j : Json) :
    zDefault d f (some j) = f j := rfl

theorem zOptional_some {α : Type} (f : Json → ZResult α) (j : Json) :
    zOptional f (some j) = (f j).map some := rfl

theorem zArrOf_map_str (p : Str) (l : List Str) :
    zArrOf (zStr p) (l.map Json.str) = .ok l := by
  induction l with
  | nil => rfl
  | cons a rest ih =>
    simp only [List.map_cons, zArrOf, zStr, ih]
    rfl

theorem zStrPairs_map (p : Str) (hs : List (Str × Str)) :
    zStrPairs p (hs.map (fun q => (q.1, Json.str q.2))) = .ok hs := by
  induction hs with
  | nil => rfl
  | cons a rest ih =>
    simp only [List.map_cons, zStrPairs, zStr, ih]
    rfl

theorem zStrRecord_map (p : Str) (hs : List (Str × Str)) :
    zStrRecord p (Json.obj (hs.map (fun q => (q.1, Json.str q.2)))) = .ok hs := by
  simp only [zStrRecord]
  exact zStrPairs_map p hs

theorem zStrTrim_rt (p : Str) (s : Str) (h : jsTrim s = s) :
    zStrTrim p (Json.str s) = .ok s := by
  simp only [zStrTrim, zStr, Except.map, h]

theorem zStrTrimMin1_rt (p : Str) (s : Str) (ht : jsTrim s = s) (hne : s ≠ []) :
    zStrTrimMin1 p (Json.str s) = .ok s := by
  simp only [zStrTrimMin1, zStr, ht]
  rw [if_neg hne]

theorem zIntMin1_rt (p : Str) (v : ℤ) (hv : 1 ≤ v) :
    zIntMin1 p (Json.num (v : ℚ)) = .ok v := by
  simp only [zIntMin1]
  have hden : ((v : ℚ)).den = 1 := Rat.den_intCast v
  have hmin : (1 : ℚ) ≤ (v : ℚ) := by exact_mod_cast hv
  rw [if_pos (by simp [hden, hmin])]
  have hnum : ((v : ℚ)).num = v := Rat.num_intCast v
  rw [hnum]

theorem zRat01_rt (p : Str) (q : ℚ) (h0 : 0 ≤ q) (h1 : q ≤ 1) :
    zRat01 p (Json.num q) = .ok q := by
  simp only [zRat01]
  rw [if_pos (by simp [h0, h1])]

theorem zCaptureMode_rt (p : Str) (m : CaptureMode) :
    zCaptureMode p (Json.str (captureModeStr m)) = .ok m := by
  cases m <;> rfl

theorem zWebhookProvider_rt (p : Str) (w : WebhookProvider) :
    zWebhookProvider p (Json.str (webhookProviderStr w)) = .ok w := by
  cases w <;> rfl

theorem parseWebhookConfig_rt (w : WebhookConfig) (hv : ValidWebhook w) :
    parseWebhookConfig (serializeWebhookConfig w) = .ok w := by
  obtain ⟨hurl, hune, hchat, htel⟩ := hv
  have hiss : webhookIssues w = [] := by
    unfold webhookIssues
    rw [if_neg htel]
  rcases hh : w.headers with _ | hs <;> rcases hc : w.chatId with _ | cc <;>
    simp only [serializeWebhookConfig, hh, hc, List.append_nil, List.cons_append,
      List.nil_append, List.singleton_append] <;>
    simp only [parseWebhookConfig, jGet, zDefault, zOptional, zRequired, ite_true, ite_false,
      (by decide : ("url".toList : Str) ≠ "enabled".toList),
    (by decide : ("url".toList : Str) ≠ "provider".toList),
    (by decide : ("enabled".toList : Str) ≠ "provider".toList),
    (by decide : ("url".toList : Str) ≠ "headers".toList),
    (by decide : ("enabled".toList : Str) ≠ "headers".toList),
    (by decide : ("provider".toList : Str) ≠ "headers".toList),
    (by decide : ("url".toList : Str) ≠ "chatId".toList),
    (by decide : ("enabled".toList : Str) ≠ "chatId".toList),
    (by decide : ("provider".toList : Str) ≠ "chatId".toList),
    (by decide : ("headers".toList : Str) ≠ "chatId".toList)] <;>
    rw [zStrTrimMin1_rt _ _ hurl hune, zWebhookProvider_rt] <;>
    [skip; rw [zStrTrim_rt _ _ (hchat cc hc)]; rw [zStrRecord_map _ hs];
     (rw [zStrRecord_map _ hs]; rw [zStrTrim_rt _ _ (hchat cc hc)])] <;>
    simp [zPair, zBool, zStrRecord, Except.map, zRefine, ← hh, ← hc, hiss]

theorem zArrOf_webhooks (l : List WebhookConfig) (hvl : ∀ w ∈ l, ValidWebhook w) :
    zArrOf parseWebhookConfig (l.map serializeWebhookConfig) = .ok l := by
  induction l with
  | nil => rfl
  | cons w rest ih =>
    simp only [List.map_cons, zArrOf]
    rw [parseWebhookConfig_rt w (hvl w (by simp)),
      ih (fun x hx => hvl x (by simp [hx]))]
    rfl

theorem parseFilterConfig_rt (f : FilterConfig) (hm : 1 ≤ f.minTextLength) :
    parseFilterConfig (some (Json.obj
      [("allowedApps".toList, Json.arr (f.allowedApps.map Json.str)),
       ("blockedWindows".toList, Json.arr (f.blockedWindows.map Json.str)),
       ("minTextLength".toList, Json.num (f.minTextLength : ℚ))])) = .ok f := by
  simp only [parseFilterConfig, jGet, zDefault, ite_true, ite_false,
    (by decide : ("allowedApps".toList : Str) ≠ "blockedWindows".toList),
    (by decide : ("allowedApps".toList : Str) ≠ "minTextLength".toList),
    (by decide : ("blockedWindows".toList : Str) ≠ "minTextLength".toList)]
  rw [zIntMin1_rt _ _ hm]
  simp [zArr, zArrOf_map_str, zPair, Except.map]

theorem parseCaptureConfig_rt (cap : CaptureConfig) (hm : 1 ≤ cap.hotkeyHoldMs) :
    parseCaptureConfig (some (Json.obj
      [("mode".toList, Json.str (captureModeStr cap.mode)),
       ("hotkeyHoldMs".toList, Json.num (cap.hotkeyHoldMs : ℚ))])) = .ok cap := by
  simp only [parseCaptureConfig, jGet, zDefault, ite_true, ite_false,
    (by decide : ("mode".toList : Str) ≠ "hotkeyHoldMs".toList)]
  rw [zIntMin1_rt _ _ hm, zCaptureMode_rt]
  simp [zPair, Except.map]

theorem parseReviewConfig_rt (r : ReviewConfig)
    (hp : jsTrim r.provider = r.provider) (hm : jsTrim r.model = r.model)
    (he : r.enabled = true → r.provider ≠ [] ∧ r.model ≠ [] ∧ r.apiKey ≠ []) :
    parseReviewConfig (some (Json.obj
      [("enabled".toList, Json.bool r.enabled),
       ("provider".toList, Json.str r.provider),
       ("model".toList, Json.str r.model),
       ("apiKey".toList, Json.str r.apiKey),
       ("failOpen".toList, Json.bool r.failOpen)])) = .ok r := by
  have hiss : reviewIssues r = [] := by
    unfold reviewIssues
    cases hen : r.enabled with
    | false => simp
    | true =>
      obtain ⟨q1, q2, q3⟩ := he hen
      simp [q1, q2, q3]
  simp only [parseReviewConfig, jGet, zDefault, ite_true, ite_false,
    (by decide : ("enabled".toList : Str) ≠ "provider".toList),
    (by decide : ("enabled".toList : Str) ≠ "model".toList),
    (by decide : ("provider".toList : Str) ≠ "model".toList),
    (by decide : ("enabled".toList : Str) ≠ "apiKey".toList),
    (by decide : ("provider".toList : Str) ≠ "apiKey".toList),
    (by decide : ("model".toList : Str) ≠ "apiKey".toList),
    (by decide : ("enabled".toList : Str) ≠ "failOpen".toList),
    (by decide : ("provider".toList : Str) ≠ "failOpen".toList),
    (by decide : ("model".toList : Str) ≠ "failOpen".toList),
    (by decide : ("apiKey".toList : Str) ≠ "failOpen".toList)]
  rw [zStrTrim_rt _ _ hp, zStrTrim_rt _ _ hm]
  simp [zPair, zBool, zStr, Except.map, zRefine, hiss]

theorem parseNotificationConfig_rt (n : NotificationConfig)
    (hw : ∀ w ∈ n.webhooks, ValidWebhook w) :
    parseNotificationConfig (some (Json.obj
      [("desktop".toList, Json.bool n.desktop),
       ("webhooks".toList, Json.arr (n.webhooks.map serializeWebhookConfig))])) = .ok n := by
  simp only [parseNotificationConfig, jGet, zDefault, ite_true, ite_false,
    (by decide : ("desktop".toList : Str) ≠ "webhooks".toList)]
  simp [zArr, zArrOf_webhooks n.webhooks hw, zPair, zBool, Except.map]

theorem parseRemindersConfig_rt (r : RemindersConfig)
    (ht : jsTrim r.list = r.list) (hne : r.list ≠ []) :
    parseRemindersConfig (some (Json.obj
      [("enabled".toList, Json.bool r.enabled),
       ("list".toList, Json.str r.list)])) = .ok r := by
  simp only [parseRemindersConfig, jGet, zDefault, ite_true, ite_false,
    (by decide : ("enabled".toList : Str) ≠ "list".toList)]
  rw [zStrTrimMin1_rt _ _ ht hne]
  simp [zPair, zBool, Except.map]

theorem parseNotesConfig_rt (n : NotesConfig)
    (ht : jsTrim n.folder = n.folder) (hne : n.folder ≠ []) :
    parseNotesConfig (some (Json.obj
      [("enabled".toList, Json.bool n.enabled),
       ("folder".toList, Json.str n.folder)])) = .ok n := by
  simp only [parseNotesConfig, jGet, zDefault, ite_true, ite_false,
    (by decide : ("enabled".toList : Str) ≠ "folder".toList)]
  rw [zStrTrimMin1_rt _ _ ht hne]
  simp [zPair, zBool, Except.map]

theorem parseDedupConfig_rt (d : DedupConfig)
    (h1 : 0 ≤ d.actionableThreshold) (h2 : d.actionableThreshold ≤ 1)
    (h3 : 0 ≤ d.noteworthyThreshold) (h4 : d.noteworthyThreshold ≤ 1)
    (h5 : 1 ≤ d.lookbackDays) :
    parseDedupConfig (some (Json.obj
      [("actionableThreshold".toList, Json.num d.actionableThreshold),
       ("noteworthyThreshold".toList, Json.num d.noteworthyThreshold),
       ("lookbackDays".toList, Json.num (d.lookbackDays : ℚ))])) = .ok d := by
  simp only [parseDedupConfig, jGet, zDefault, ite_true, ite_false,
    (by decide : ("actionableThreshold".toList : Str) ≠ "noteworthyThreshold".toList),
    (by decide : ("actionableThreshold".toList : Str) ≠ "lookbackDays".toList),
    (by decide : ("noteworthyThreshold".toList : Str) ≠ "lookbackDays".toList)]
  rw [zRat01_rt _ _ h1 h2, zRat01_rt _ _ h3 h4, zIntMin1_rt _ _ h5]
  simp [zPair, Except.map]

/-- Re-parsing the serialization of a schema-valid config reproduces it. -/
theorem parsePipeConfig_roundtrip (c : PipeConfig) (hv : ValidConfig c) :
    parsePipeConfig (serializePipeConfig c) = .ok c := by
  obtain ⟨h1, h2, h3, h4, h5, h6, h7, h8, h9, h10, h11, h12, h13, h14, h15, h16, h17⟩ := hv
  simp only [serializePipeConfig, parsePipeConfig, jGet, zDefault, ite_true, ite_false,
    (by decide : ("filter".toList : Str) ≠ "capture".toList),
    (by decide : ("filter".toList : Str) ≠ "review".toList),
    (by decide : ("capture".toList : Str) ≠ "review".toList),
    (by decide : ("filter".toList : Str) ≠ "outputLanguage".toList),
    (by decide : ("capture".toList : Str) ≠ "outputLanguage".toList),
    (by decide : ("review".toList : Str) ≠ "outputLanguage".toList),
    (by decide : ("filter".toList : Str) ≠ "notification".toList),
    (by decide : ("capture".toList : Str) ≠ "notification".toList),
    (by decide : ("review".toList : Str) ≠ "notification".toList),
    (by decide : ("outputLanguage".toList : Str) ≠ "notification".toList),
    (by decide : ("filter".toList : Str) ≠ "reminders".toList),
    (by decide : ("capture".toList : Str) ≠ "reminders".toList),
    (by decide : ("review".toList : Str) ≠ "reminders".toList),
    (by decide : ("outputLanguage".toList : Str) ≠ "reminders".toList),
    (by decide : ("notification".toList : Str) ≠ "reminders".toList),
    (by decide : ("filter".toList : Str) ≠ "notes".toList),
    (by decide : ("capture".toList : Str) ≠ "notes".toList),
    (by decide : ("review".toList : Str) ≠ "notes".toList),
    (by decide : ("outputLanguage".toList : Str) ≠ "notes".toList),
    (by decide : ("notification".toList : Str) ≠ "notes".toList),
    (by decide : ("reminders".toList : Str) ≠ "notes".toList),
    (by decide : ("filter".toList : Str) ≠ "dedup".toList),
    (by decide : ("capture".toList : Str) ≠ "dedup".toList),
    (by decide : ("review".toList : Str) ≠ "dedup".toList),
    (by decide : ("outputLanguage".toList : Str) ≠ "dedup".toList),
    (by decide : ("notification".toList : Str) ≠ "dedup".toList),
    (by decide : ("reminders".toList : Str) ≠ "dedup".toList),
    (by decide : ("notes".toList : Str) ≠ "dedup".toList)]
  rw [parseFilterConfig_rt _ h1, parseCaptureConfig_rt _ h2,
    parseReviewConfig_rt _ h3 h4 h5, zStrTrimMin1_rt _ _ h6 h7,
    parseNotificationConfig_rt _ h8, parseRemindersConfig_rt _ h9 h10,
    parseNotesConfig_rt _ h11 h12, parseDedupConfig_rt _ h13 h14 h15 h16 h17]
  simp [zPair, Except.map]


/-- C5: parsing the empty JSON object succeeds and yields exactly the
fully-defaulted PipeConfig (every documented default applied), and parsing
the serialization of a valid parsed PipeConfig reproduces an identical
config (serialization round-trip). -/
theorem C5_empty_defaults_and_roundtrip :
    parsePipeConfig (Json.obj []) = .ok defaultPipeConfig ∧
    ∀ (j : Json) (c : PipeConfig), parsePipeConfig j = .ok c →
      parsePipeConfig (serializePipeConfig c) = .ok c :=
  ⟨rfl, fun _ c h => parsePipeConfig_roundtrip c (parsePipeConfig_valid h)⟩

/-- C5 witness: the fully-defaulted config round-trips through
serialization. -/
theorem C5_witness :
    parsePipeConfig (Json.obj []) = .ok defaultPipeConfig ∧
    parsePipeConfig (serializePipeConfig defaultPipeConfig) = .ok defaultPipeConfig :=
  ⟨C5_empty_defaults_and_roundtrip.1,
   C5_empty_defaults_and_roundtrip.2 (Json.obj []) defaultPipeConfig
     C5_empty_defaults_and_roundtrip.1⟩

end LivePipe
